import Mathlib

/-!
Verification development for the Baikon flow-script engine
(`parser.py` / `baikon_engine.py`, the v2 parser + engine).

The Python sources are embedded shallowly:
  * Python strings are Lean `String`s; the handful of `str` methods the
    code uses (`strip`, `lower`, `split`, `replace`, `in`, slicing) are
    re-implemented below with Python semantics.
  * The `re` regular expression patterns used in `_parse_trigger` /
    `_parse_action` are embedded via a small backtracking matcher (`RE`)
    whose alternation / greedy / lazy behaviour mirrors Python `re.match`
    for the constructs those patterns use.
  * Python dictionaries become insertion-ordered association lists.
  * Exceptions become `Except`; the engine's recursion is fuelled, a fuel
    exhaustion corresponding to Python's `RecursionError`.
  * External capabilities (the `requests` HTTP client, `json.loads`,
    `eval`, the runtime-compiled `/regex/` search) are oracle parameters
    carried on the engine value.
-/

namespace Baikon

/-! ### Python string primitives -/

/-- Whitespace recognised by Python's default `str.strip` and `\s`. -/
def isPySpace (c : Char) : Bool :=
  c = ' ' || c = '\t' || c = '\n' || c = '\r' || c = '\x0b' || c = '\x0c'

/-- Python `str.strip()` (no argument form). -/
def pyStrip (s : String) : String :=
  ⟨((s.toList.dropWhile isPySpace).reverse.dropWhile isPySpace).reverse⟩

/-- Python `str.strip(chars)` for a single strip character. -/
def pyStripChar (ch : Char) (s : String) : String :=
  ⟨((s.toList.dropWhile (fun c => c = ch)).reverse.dropWhile
      (fun c => c = ch)).reverse⟩

/-- Python `str.lower()` (ASCII; the scripts involved are ASCII). -/
def pyLower (s : String) : String := ⟨s.toList.map Char.toLower⟩

/-- Python `str.upper()` (ASCII). -/
def pyUpper (s : String) : String := ⟨s.toList.map Char.toUpper⟩

/-- Python `s.startswith(pre)`. -/
def pyStartsWith (s pre : String) : Bool := pre.toList.isPrefixOf s.toList

/-- Python `s.endswith(suf)`. -/
def pyEndsWith (s suf : String) : Bool :=
  suf.toList.reverse.isPrefixOf s.toList.reverse

/-- Python slice `s[n:]`. -/
def pyDrop (n : Nat) (s : String) : String := ⟨s.toList.drop n⟩

/-- Python slice `s[:-1]`. -/
def pyDropLast (s : String) : String := ⟨s.toList.dropLast⟩

/-- Python slice `s[1:-1]`. -/
def pyInner (s : String) : String := ⟨(s.toList.drop 1).dropLast⟩

/-- Split a character list at every occurrence of `sep` (Python
`str.split(sep)` for a one-character separator, keeping empty parts). -/
def splitChar (sep : Char) : List Char → List (List Char)
  | [] => [[]]
  | c :: rest =>
    let r := splitChar sep rest
    if c = sep then [] :: r
    else
      match r with
      | h :: t => (c :: h) :: t
      | [] => [[c]]

/-- Python `content.split(sep)` for a one-character separator. -/
def pySplitChar (sep : Char) (s : String) : List String :=
  (splitChar sep s.toList).map (fun l => ⟨l⟩)

/-- Find the first occurrence of `pat` in `s`, returning the pieces
before and after it. -/
def splitOnceAux (pat : List Char) : List Char → Option (List Char × List Char)
  | [] => if pat.isPrefixOf ([] : List Char) then some ([], []) else none
  | c :: rest =>
    if pat.isPrefixOf (c :: rest) then some ([], (c :: rest).drop pat.length)
    else
      match splitOnceAux pat rest with
      | some (a, b) => some (c :: a, b)
      | none => none

/-- Python `pat in s` (substring containment). -/
def pyContains (s pat : String) : Bool := (splitOnceAux pat.toList s.toList).isSome

/-- Python `s.split(sep, 1)`: the part before the first occurrence of
`sep` and, when `sep` occurs, the part after it. -/
def pySplitOnce (sep s : String) : String × Option String :=
  match splitOnceAux sep.toList s.toList with
  | some (a, b) => (⟨a⟩, some ⟨b⟩)
  | none => (s, none)

/-- Python `s.split(sep)` for a string separator (fuelled, the fuel is
always sufficient because each split consumes at least one character). -/
def pySplitAllAux (pat : List Char) : Nat → List Char → List (List Char)
  | 0, s => [s]
  | fuel + 1, s =>
    match splitOnceAux pat s with
    | some (a, b) => a :: pySplitAllAux pat fuel b
    | none => [s]

/-- Python `s.split(sep)` (string separator, keeps empty parts). -/
def pySplitAll (sep s : String) : List String :=
  if sep.toList.isEmpty then [s]
  else (pySplitAllAux sep.toList s.toList.length s.toList).map (fun l => ⟨l⟩)

/-- One step of Python `str.replace`: replace non-overlapping occurrences
of `pat` left to right (fuelled; `s.length` fuel is always sufficient).
The empty pattern is treated as never matching (the code only replaces
nonempty patterns). -/
def replaceAux (pat rep : List Char) : Nat → List Char → List Char
  | 0, s => s
  | _ + 1, [] => []
  | fuel + 1, c :: rest =>
    if !pat.isEmpty && pat.isPrefixOf (c :: rest) then
      rep ++ replaceAux pat rep fuel (rest.drop (pat.length - 1))
    else c :: replaceAux pat rep fuel rest

/-- Python `s.replace(pat, rep)`. -/
def pyReplace (s pat rep : String) : String :=
  ⟨replaceAux pat.toList rep.toList s.toList.length s.toList⟩

/-- Python `s.isdigit()` (ASCII digits). -/
def pyIsDigit (s : String) : Bool :=
  !s.toList.isEmpty && s.toList.all Char.isDigit

/-- Value of a nonempty all-digit character list. -/
def digitsVal : List Char → Option Nat
  | [] => none
  | ds =>
    if ds.all Char.isDigit then
      some (ds.foldl (fun acc c => acc * 10 + (c.toNat - '0'.toNat)) 0)
    else none

/-- Python `int(s)`: optional sign and digits after stripping whitespace
(underscore grouping and non-ASCII digits are not modelled). -/
def pyInt? (s : String) : Option Int :=
  match (pyStrip s).toList with
  | '-' :: ds => (digitsVal ds).map (fun n => -(n : Int))
  | '+' :: ds => (digitsVal ds).map (fun n => (n : Int))
  | ds => (digitsVal ds).map (fun n => (n : Int))

/-- Python `float(s)` for plain decimal forms `digits`, `digits.digits`,
`.digits`, `digits.` with an optional sign (exponents, `inf`, `nan` are
not modelled; every duration string the code feeds in is plain digits). -/
def pyFloat? (s : String) : Option ℚ :=
  let core : List Char → Option ℚ := fun t =>
    match splitChar '.' t with
    | [ip] => (digitsVal ip).map (fun n => (n : ℚ))
    | [ip, fp] =>
      if ip.isEmpty && fp.isEmpty then none
      else if ip.all Char.isDigit && fp.all Char.isDigit then
        some ((ip.foldl (fun acc c => acc * 10 + (c.toNat - '0'.toNat)) 0 : ℚ)
          + (fp.foldl (fun acc c => acc * 10 + (c.toNat - '0'.toNat)) 0 : ℚ)
            / (10 ^ fp.length : ℚ))
      else none
    | _ => none
  match (pyStrip s).toList with
  | '-' :: t => (core t).map (fun q => -q)
  | '+' :: t => core t
  | t => core t

/-! ### A small backtracking regular-expression matcher

`parser.py` matches each trigger/action line against a fixed list of
`re.match` patterns.  Those patterns only use: literal text, one-or-more /
zero-or-more repetition of a single character class (greedy `+`, `*` and
lazy `+?`), an optional non-capturing group `(?:...)?` (greedy), a literal
alternation `(a|b|...)`, and capture groups.  The matcher below implements
exactly those constructs with Python's leftmost / backtracking semantics:
alternatives are tried left to right, greedy repetition prefers consuming,
lazy repetition prefers not consuming, an optional group is tried with its
body first, and — as with `re.match` — a match needs only a prefix of the
input, trailing text is ignored. -/

/-- Regular-expression abstract syntax (the subset used by the parser). -/
inductive RE where
  /-- literal character sequence -/
  | lit : List Char → RE
  /-- a single character satisfying the class -/
  | one : (Char → Bool) → RE
  /-- concatenation -/
  | seq : RE → RE → RE
  /-- greedy `(?:r)?` -/
  | opt : RE → RE
  /-- `p*` (class repetition); `lazy = true` for the `*?` variant -/
  | rep : (Char → Bool) → Bool → RE
  /-- capture group `n` -/
  | grp : Nat → RE → RE
  /-- literal alternation `(a|b|...)`, tried left to right -/
  | alts : List (List Char) → RE

/-- Captures: group number paired with the captured text. -/
abbrev Caps := List (Nat × String)

/-- A work item for the matcher: either an expression still to match, or
the closing marker of a capture group (holding the input as it was when
the group opened, so the consumed span can be recovered). -/
inductive Frame where
  | re : RE → Frame
  | close : Nat → List Char → Frame

/-- Backtracking matcher over an explicit stack of work items, mirroring
Python `re`'s behaviour on the constructs the parser uses: alternatives
and optional groups are tried body-first, greedy repetition prefers
consuming, lazy repetition prefers not consuming; an empty stack is a
successful (prefix) match, trailing input being ignored like `re.match`.
The fuel bounds the explored steps; the wrapper supplies an amount never
exhausted on the fixed parser patterns. -/
def reRun : Nat → List Frame → List Char → Caps → Option Caps
  | 0, _, _, _ => none
  | _ + 1, [], _, caps => some caps
  | f + 1, fr :: stk, s, caps =>
    match fr with
    | .close n start =>
      reRun f stk s (caps ++ [(n, ⟨start.take (start.length - s.length)⟩)])
    | .re r =>
      match r with
      | .lit l =>
        if l.isPrefixOf s then reRun f stk (s.drop l.length) caps else none
      | .one p =>
        match s with
        | [] => none
        | c :: rest => if p c then reRun f stk rest caps else none
      | .seq a b => reRun f (.re a :: .re b :: stk) s caps
      | .opt r1 =>
        match reRun f (.re r1 :: stk) s caps with
        | some res => some res
        | none => reRun f stk s caps
      | .rep p lz =>
        if lz then
          match reRun f stk s caps with
          | some res => some res
          | none =>
            match s with
            | [] => none
            | c :: rest =>
              if p c then reRun f (.re (.rep p lz) :: stk) rest caps else none
        else
          match s with
          | c :: rest =>
            if p c then
              match reRun f (.re (.rep p lz) :: stk) rest caps with
              | some res => some res
              | none => reRun f stk s caps
            else reRun f stk s caps
          | [] => reRun f stk s caps
      | .grp n r1 => reRun f (.re r1 :: .close n s :: stk) s caps
      | .alts ls =>
        match ls with
        | [] => none
        | l :: ls2 =>
          if l.isPrefixOf s then
            match reRun f stk (s.drop l.length) caps with
            | some res => some res
            | none => reRun f (.re (.alts ls2) :: stk) s caps
          else reRun f (.re (.alts ls2) :: stk) s caps

/-- Fuel that generously bounds the matcher's exploration on the fixed
parser patterns (each has at most six repetition groups). -/
def reFuel (s : List Char) : Nat := (s.length + 16) ^ 4

/-- Python `re.match(pattern, line)`: anchored at the start, prefix match,
returning the captures on success (`none` for "no match"). -/
def reMatch (re : RE) (s : String) : Option Caps :=
  reRun (reFuel s.toList) [.re re] s.toList []

/-- `match.group(n)` as `Option`: `none` when the group did not take part
in the match (Python's `None`). -/
def capGet (caps : Caps) (n : Nat) : Option String :=
  (caps.find? (fun p => p.1 = n)).map Prod.snd

/-! #### Regex building blocks -/

/-- `\s` (same set as Python's default whitespace). -/
def reSp : Char → Bool := isPySpace

/-- `\w` (ASCII letters, digits, underscore). -/
def reWord (c : Char) : Bool :=
  c.isAlpha || c.isDigit || c = '_'

/-- `.` (any character except newline). -/
def reAny (c : Char) : Bool := c ≠ '\n'

/-- `\d`. -/
def reDigit : Char → Bool := Char.isDigit

/-- Greedy `p+`. -/
def plusG (p : Char → Bool) : RE := .seq (.one p) (.rep p false)

/-- Lazy `p+?`. -/
def plusL (p : Char → Bool) : RE := .seq (.one p) (.rep p true)

/-- Greedy `p*`. -/
def starG (p : Char → Bool) : RE := .rep p false

/-- Literal from a string. -/
def reLit (s : String) : RE := .lit s.toList

/-- Sequence of several expressions. -/
def reSeq (rs : List RE) : RE := rs.foldr RE.seq (.lit [])

/-! ### AST model (`parser.py` dataclasses) -/

/-- A Python runtime value as stored in variables / defaults.  `vNone` is
Python's `None`; `vRaw` stands in for structured JSON values decoded in
the `config:` block (no claim inspects their structure). -/
inductive Value where
  | vStr : String → Value
  | vInt : Int → Value
  | vRat : ℚ → Value
  | vBool : Bool → Value
  | vNone : Value
  | vRaw : String → Value
deriving DecidableEq, Repr

/-- Python `str(value)` for the stored value kinds (`vRat` prints as the
rational literal, an approximation of float repr never hit by the claims). -/
def Value.toStr : Value → String
  | .vStr s => s
  | .vInt n => toString n
  | .vRat q => toString q
  | .vBool b => if b then "True" else "False"
  | .vNone => "None"
  | .vRaw s => s

/-- `TriggerType` enum. -/
inductive TriggerType where
  | user_says | variable_equals | api_response | timer | event | always
deriving DecidableEq, Repr

/-- A parsed condition dictionary `{"type": ..., "variable": ..., "value": ...}`. -/
structure Condition where
  ctype : String
  «variable» : String
  value : String
deriving DecidableEq, Repr

/-- `FlowTrigger` dataclass. -/
structure FlowTrigger where
  type : TriggerType
  pattern : String
  conditions : List Condition := []
  priority : Int := 0
deriving DecidableEq, Repr

/-- The per-variant `params` dictionary of a `FlowAction` (the parser
only ever constructs these shapes; `ActionType.GET`/`IMPORT` have no
grammar and are never produced). -/
inductive ActionParams where
  | say (message : String)
  | set («variable» value : String)
  | call (function params : String)
  | api (method url data : String)
  | emit (event data : String)
  | wait (duration : String)
  | ifA (condition action : String)
  | loop (count : Nat) (action : String)
deriving DecidableEq, Repr

/-- `FlowAction` dataclass (`type` is determined by the `params` variant). -/
structure FlowAction where
  params : ActionParams
  conditions : List Condition := []
deriving DecidableEq, Repr

/-- `FlowFunction` dataclass (the informational `returns`/`async_` tags
are carried but never read by the engine). -/
structure FlowFunction where
  name : String
  actions : List FlowAction := []
  params : List String := []
  returns : Option String := none
  async_ : Bool := false
deriving DecidableEq, Repr

/-- `FlowVariable` dataclass. -/
structure FlowVariable where
  name : String
  value : Value := .vNone
  type : String := "string"
  persistent : Bool := false
deriving DecidableEq, Repr

/-- `Flow` dataclass.  `_parse_flow_block` appends the raw result of
`_parse_action` — possibly `None` — to `flow.actions`, hence the
`Option`. -/
structure Flow where
  name : String
  triggers : List FlowTrigger := []
  actions : List (Option FlowAction) := []
  middleware : List String := []
  timeout : Option Int := none
  retry_count : Int := 0
deriving DecidableEq, Repr

/-- `FlowModule` dataclass; the dictionaries are insertion-ordered
association lists, as in Python. -/
structure FlowModule where
  name : String
  flows : List (String × Flow) := []
  functions : List (String × FlowFunction) := []
  «variables» : List (String × FlowVariable) := []
  imports : List String := []
  config : List (String × Value) := []
deriving DecidableEq, Repr

/-- Python `d[k] = v` on an insertion-ordered dictionary: overwrite in
place when the key exists, else append. -/
def dset (l : List (String × α)) (k : String) (v : α) : List (String × α) :=
  if (l.find? (fun p => p.1 = k)).isSome then
    l.map (fun p => if p.1 = k then (k, v) else p)
  else l ++ [(k, v)]

/-- Python `d.get(k)`. -/
def dget (l : List (String × α)) (k : String) : Option α :=
  (l.find? (fun p => p.1 = k)).map Prod.snd

/-! ### The fixed trigger/action regex patterns of `parser.py` -/

/-- `(?:\s+if\s+(.+?))?` — optional lazy trailing condition (triggers). -/
def optIfLazy (n : Nat) : RE :=
  .opt (reSeq [plusG reSp, reLit "if", plusG reSp, .grp n (plusL reAny)])

/-- `(?:\s+if\s+(.+))?` — optional greedy trailing condition (actions). -/
def optIfGreedy (n : Nat) : RE :=
  .opt (reSeq [plusG reSp, reLit "if", plusG reSp, .grp n (plusG reAny)])

/-- `(?:\s+with\s+(.+))?`. -/
def optWith (n : Nat) : RE :=
  .opt (reSeq [plusG reSp, reLit "with", plusG reSp, .grp n (plusG reAny)])

/-- `\s*->\s*call\s+(\w+)` — the common trigger tail. -/
def trigTail (n : Nat) : RE :=
  reSeq [starG reSp, reLit "->", starG reSp, reLit "call", plusG reSp,
    .grp n (plusG reWord)]

/-- `(\d+[smh]?)`. -/
def durGrp (n : Nat) : RE :=
  .grp n (.seq (plusG reDigit)
    (.opt (.one (fun c => c = 's' || c = 'm' || c = 'h'))))

/-- `when user says "([^"]+)"(?:\s+if\s+(.+?))?\s*->\s*call\s+(\w+)` -/
def patUserSays : RE := reSeq [
  reLit "when user says \"", .grp 1 (plusG (fun c => c ≠ '"')), reLit "\"",
  optIfLazy 2, trigTail 3]

/-- `when var (\w+) equals "([^"]+)"(?:\s+if\s+(.+?))?\s*->\s*call\s+(\w+)` -/
def patVarEquals : RE := reSeq [
  reLit "when var ", .grp 1 (plusG reWord), reLit " equals \"",
  .grp 2 (plusG (fun c => c ≠ '"')), reLit "\"", optIfLazy 3, trigTail 4]

/-- `when api (\w+) returns(?:\s+if\s+(.+?))?\s*->\s*call\s+(\w+)` -/
def patApiReturns : RE := reSeq [
  reLit "when api ", .grp 1 (plusG reWord), reLit " returns",
  optIfLazy 2, trigTail 3]

/-- `when timer (\d+[smh]?)(?:\s+if\s+(.+?))?\s*->\s*call\s+(\w+)` -/
def patTimer : RE := reSeq [reLit "when timer ", durGrp 1, optIfLazy 2, trigTail 3]

/-- `when event (\w+)(?:\s+if\s+(.+?))?\s*->\s*call\s+(\w+)` -/
def patEvent : RE := reSeq [
  reLit "when event ", .grp 1 (plusG reWord), optIfLazy 2, trigTail 3]

/-- `when always(?:\s+if\s+(.+?))?\s*->\s*call\s+(\w+)` -/
def patAlways : RE := reSeq [reLit "when always", optIfLazy 1, trigTail 2]

/-- `say "([^"]+)"(?:\s+if\s+(.+))?` -/
def patSay : RE := reSeq [
  reLit "say \"", .grp 1 (plusG (fun c => c ≠ '"')), reLit "\"", optIfGreedy 2]

/-- `set (\w+)\s*=\s*"([^"]+)"(?:\s+if\s+(.+))?` -/
def patSetQuoted : RE := reSeq [
  reLit "set ", .grp 1 (plusG reWord), starG reSp, reLit "=", starG reSp,
  reLit "\"", .grp 2 (plusG (fun c => c ≠ '"')), reLit "\"", optIfGreedy 3]

/-- `set (\w+)\s*=\s*(\w+)(?:\s+if\s+(.+))?` -/
def patSetWord : RE := reSeq [
  reLit "set ", .grp 1 (plusG reWord), starG reSp, reLit "=", starG reSp,
  .grp 2 (plusG reWord), optIfGreedy 3]

/-- `call (\w+)(?:\(([^)]*)\))?(?:\s+if\s+(.+))?` -/
def patCall : RE := reSeq [
  reLit "call ", .grp 1 (plusG reWord),
  .opt (reSeq [reLit "(", .grp 2 (starG (fun c => c ≠ ')')), reLit ")"]),
  optIfGreedy 3]

/-- `api (get|post|put|delete)\s+([^\s]+)(?:\s+with\s+(.+))?(?:\s+if\s+(.+))?` -/
def patApi : RE := reSeq [
  reLit "api ",
  .grp 1 (.alts ["get".toList, "post".toList, "put".toList, "delete".toList]),
  plusG reSp, .grp 2 (plusG (fun c => !isPySpace c)), optWith 3, optIfGreedy 4]

/-- `emit (\w+)(?:\s+with\s+(.+))?(?:\s+if\s+(.+))?` -/
def patEmit : RE := reSeq [
  reLit "emit ", .grp 1 (plusG reWord), optWith 2, optIfGreedy 3]

/-- `wait (\d+[smh]?)(?:\s+if\s+(.+))?` -/
def patWait : RE := reSeq [reLit "wait ", durGrp 1, optIfGreedy 2]

/-- `if (.+?) then (.+)` -/
def patIf : RE := reSeq [
  reLit "if ", .grp 1 (plusL reAny), reLit " then ", .grp 2 (plusG reAny)]

/-- `loop (\d+) times:\s*(.+)` -/
def patLoop : RE := reSeq [
  reLit "loop ", .grp 1 (plusG reDigit), reLit " times:", starG reSp,
  .grp 2 (plusG reAny)]

/-! ### `BaikonParser` -/

/-- `_parse_conditions`: split on every `" and "`, keep the clauses that
contain `" equals "` or `" contains "`. -/
def parse_conditions (condition_str : String) : List Condition :=
  if condition_str = "" then []
  else
    (pySplitAll " and " condition_str).foldl (fun acc cond0 =>
      let cond := pyStrip cond0
      if pyContains cond " equals " then
        let (v, rest) := pySplitOnce " equals " cond
        acc ++ [⟨"equals", pyStrip v, pyStripChar '"' (pyStrip (rest.getD ""))⟩]
      else if pyContains cond " contains " then
        let (v, rest) := pySplitOnce " contains " cond
        acc ++ [⟨"contains", pyStrip v, pyStripChar '"' (pyStrip (rest.getD ""))⟩]
      else acc) []

/-- `_parse_trigger`, patterns tried in source order.  As in the code,
`pattern` is `groups[0] if groups[0] else ""` and the conditions come from
`groups[-2] if len(groups) > 2 and groups[-2] else ""` — so the quoted
value of a `when var … equals "…"` trigger (group 2) is dropped, and for
`when always` (two groups) the trailing `if` clause lands in `pattern`
while the conditions stay empty.  `none` is the `ValueError` case. -/
def parse_trigger (line : String) : Option FlowTrigger :=
  match reMatch patUserSays line with
  | some caps =>
    some ⟨.user_says, (capGet caps 1).getD "",
      parse_conditions ((capGet caps 2).getD ""), 0⟩
  | none =>
  match reMatch patVarEquals line with
  | some caps =>
    some ⟨.variable_equals, (capGet caps 1).getD "",
      parse_conditions ((capGet caps 3).getD ""), 0⟩
  | none =>
  match reMatch patApiReturns line with
  | some caps =>
    some ⟨.api_response, (capGet caps 1).getD "",
      parse_conditions ((capGet caps 2).getD ""), 0⟩
  | none =>
  match reMatch patTimer line with
  | some caps =>
    some ⟨.timer, (capGet caps 1).getD "",
      parse_conditions ((capGet caps 2).getD ""), 0⟩
  | none =>
  match reMatch patEvent line with
  | some caps =>
    some ⟨.event, (capGet caps 1).getD "",
      parse_conditions ((capGet caps 2).getD ""), 0⟩
  | none =>
  match reMatch patAlways line with
  | some caps => some ⟨.always, (capGet caps 1).getD "", [], 0⟩
  | none => none

/-- `_parse_action`, patterns tried in source order; the guard conditions
come from the pattern's *last* group when it is non-`None` and nonempty —
for `if`/`loop` that last group is the nested action text itself. -/
def parse_action (line : String) : Option FlowAction :=
  match reMatch patSay line with
  | some caps =>
    some ⟨.say ((capGet caps 1).getD ""),
      parse_conditions ((capGet caps 2).getD "")⟩
  | none =>
  match reMatch patSetQuoted line with
  | some caps =>
    some ⟨.set ((capGet caps 1).getD "") ((capGet caps 2).getD ""),
      parse_conditions ((capGet caps 3).getD "")⟩
  | none =>
  match reMatch patSetWord line with
  | some caps =>
    some ⟨.set ((capGet caps 1).getD "") ((capGet caps 2).getD ""),
      parse_conditions ((capGet caps 3).getD "")⟩
  | none =>
  match reMatch patCall line with
  | some caps =>
    some ⟨.call ((capGet caps 1).getD "") ((capGet caps 2).getD ""),
      parse_conditions ((capGet caps 3).getD "")⟩
  | none =>
  match reMatch patApi line with
  | some caps =>
    some ⟨.api ((capGet caps 1).getD "") ((capGet caps 2).getD "")
        ((capGet caps 3).getD ""),
      parse_conditions ((capGet caps 4).getD "")⟩
  | none =>
  match reMatch patEmit line with
  | some caps =>
    some ⟨.emit ((capGet caps 1).getD "") ((capGet caps 2).getD ""),
      parse_conditions ((capGet caps 3).getD "")⟩
  | none =>
  match reMatch patWait line with
  | some caps =>
    some ⟨.wait ((capGet caps 1).getD ""),
      parse_conditions ((capGet caps 2).getD "")⟩
  | none =>
  match reMatch patIf line with
  | some caps =>
    some ⟨.ifA ((capGet caps 1).getD "") ((capGet caps 2).getD ""),
      parse_conditions ((capGet caps 2).getD "")⟩
  | none =>
  match reMatch patLoop line with
  | some caps =>
    some ⟨.loop ((digitsVal ((capGet caps 1).getD "").toList).getD 0)
        ((capGet caps 2).getD ""),
      parse_conditions ((capGet caps 2).getD "")⟩
  | none => none

/-- `_parse_variable`: `var <info>[ = <default>]` with an optional
`persistent` token; the default is the text between the first and second
`=` (Python `split('=')[1]`), stripped of whitespace then quotes. -/
def parse_variable (var_def : String) (m : FlowModule) : FlowModule :=
  let parts := pySplitAll "=" var_def
  let var_info0 := pyStrip (parts.headD "")
  let default_value : Value :=
    match parts with
    | _ :: p1 :: _ => .vStr (pyStripChar '"' (pyStrip p1))
    | _ => .vNone
  let persistent := pyContains var_info0 "persistent"
  let var_info :=
    if persistent then pyStrip (pyReplace var_info0 "persistent" "")
    else var_info0
  let nt : String × String :=
    if pyContains var_info ":" then
      let (n, t) := pySplitOnce ":" var_info
      (pyStrip n, pyStrip (t.getD ""))
    else (pyStrip var_info, "string")
  let nv : FlowVariable := ⟨nt.1, default_value, nt.2, persistent⟩
  { m with «variables» := dset m.«variables» nt.1 nv }

/-- `_parse_function_signature`. -/
def parse_function_signature (func_def0 : String) : FlowFunction :=
  let async_ := pyStartsWith func_def0 "async "
  let fd1 := if async_ then pyDrop 6 func_def0 else func_def0
  let fdr : String × Option String :=
    if pyContains fd1 " -> " then
      let (a, b) := pySplitOnce " -> " fd1
      (a, some (pyStrip (b.getD "")))
    else (fd1, none)
  if pyContains fdr.1 "(" then
    let segs := pySplitAll "(" fdr.1
    let name := pyStrip (segs.headD "")
    let params_str := (pySplitAll ")" (segs[1]?.getD "")).headD ""
    let params := (pySplitAll "," params_str).filterMap (fun p =>
      if pyStrip p ≠ "" then some ((pySplitAll ":" (pyStrip p)).headD "")
      else none)
    ⟨name, [], params, fdr.2, async_⟩
  else ⟨pyStrip fdr.1, [], [], fdr.2, async_⟩

/-- The reasons `parse_content` can raise: an unmatched `when ` line
(`ValueError("Invalid trigger syntax: …")`) or a non-integer
`timeout:`/`retry:` value (`int()`'s `ValueError`). -/
inductive ParseErrKind where
  | invalidTrigger : String → ParseErrKind
  | intLiteral : String → ParseErrKind
deriving DecidableEq, Repr

/-- A raised parse error together with `self.line_number` (1-based) at
the moment of the raise, which `parse_file` reports to the caller. -/
structure ParseErr where
  line : Nat
  kind : ParseErrKind
deriving DecidableEq, Repr

/-- Fuel for the line loops; each loop iteration advances the index, so
this is always sufficient. -/
def parserFuel (lines : List String) : Nat := 4 * lines.length + 16

/-- `_parse_config_block`.  Note that the code strips each line *before*
testing for indentation, so any nonempty non-comment line exits the
block; the key/value branch below is kept for fidelity but is
unreachable.  JSON-looking values are tagged `vRaw` (standing for the
`json.loads` attempt whose decoded structure no claim observes). -/
def parse_config_block : Nat → List String → Nat → FlowModule →
    FlowModule × Nat
  | 0, _, i, m => (m, i)
  | fuel + 1, lines, i, m =>
    match lines[i]? with
    | none => (m, i)
    | some raw =>
    let line := pyStrip raw
    if line = "" || pyStartsWith line "#" then
      parse_config_block fuel lines (i + 1) m
    else if !(pyStartsWith line " " || pyStartsWith line "\t") then (m, i)
    else
      let m2 :=
        if pyContains line ":" then
          let (k, v0) := pySplitOnce ":" line
          let key := pyStrip k
          let value := pyStrip (v0.getD "")
          let coerced : Value :=
            if pyStartsWith value "\x7b" || pyStartsWith value "[" ||
                pyStartsWith value "\"" then .vRaw value
            else if pyLower value = "true" || pyLower value = "false" then
              .vBool (pyLower value = "true")
            else if pyIsDigit value then
              .vInt ((pyInt? value).getD 0)
            else .vStr value
          { m with config := dset m.config key coerced }
        else m
      parse_config_block fuel lines (i + 1) m2

/-- `_parse_header`. -/
def parse_header : Nat → List String → Nat → FlowModule → FlowModule
  | 0, _, _, m => m
  | fuel + 1, lines, i, m =>
    match lines[i]? with
    | none => m
    | some raw =>
    let line := pyStrip raw
    if line = "" || pyStartsWith line "#" then parse_header fuel lines (i + 1) m
    else if pyStartsWith line "version:" then
      let v := pyStrip ((pySplitOnce ":" line).2.getD "")
      parse_header fuel lines (i + 1)
        { m with config := dset m.config "version" (.vStr v) }
    else if pyStartsWith line "import " then
      let imps := (pySplitAll "," (pyStrip (pyDrop 7 line))).map pyStrip
      parse_header fuel lines (i + 1) { m with imports := m.imports ++ imps }
    else if pyStartsWith line "var " then
      parse_header fuel lines (i + 1) (parse_variable (pyStrip (pyDrop 4 line)) m)
    else if pyStartsWith line "config:" then
      let r := parse_config_block fuel lines (i + 1) m
      parse_header fuel lines r.2 r.1
    else if pyStartsWith line "flow " || pyStartsWith line "function " ||
        pyStartsWith line "middleware " then m
    else parse_header fuel lines (i + 1) m

/-- `_parse_flow_block`.  The stripped line never starts with a space, so
the block ends at any line ending in `:`; a malformed `when ` line raises
(line number `i + 1`); malformed `say/set/call/api/emit` lines append
`none` to `flow.actions`; other unmatched lines are skipped. -/
def parse_flow_block : Nat → List String → Nat → Flow →
    Except ParseErr (Flow × Nat)
  | 0, _, i, flow => .ok (flow, i)
  | fuel + 1, lines, i, flow =>
    match lines[i]? with
    | none => .ok (flow, i)
    | some raw =>
    let line := pyStrip raw
    if line = "" || pyStartsWith line "#" then
      parse_flow_block fuel lines (i + 1) flow
    else if !(pyStartsWith line " " || pyStartsWith line "\t") &&
        pyEndsWith line ":" then .ok (flow, i)
    else if pyStartsWith line "when " then
      match parse_trigger line with
      | some trig =>
        parse_flow_block fuel lines (i + 1)
          { flow with triggers := flow.triggers ++ [trig] }
      | none => .error ⟨i + 1, .invalidTrigger line⟩
    else if pyStartsWith line "say " || pyStartsWith line "set " ||
        pyStartsWith line "call " || pyStartsWith line "api " ||
        pyStartsWith line "emit " then
      parse_flow_block fuel lines (i + 1)
        { flow with actions := flow.actions ++ [parse_action line] }
    else if pyStartsWith line "use " then
      parse_flow_block fuel lines (i + 1)
        { flow with middleware := flow.middleware ++ [pyStrip (pyDrop 4 line)] }
    else if pyStartsWith line "timeout:" then
      let v := pyStrip ((pySplitOnce ":" line).2.getD "")
      match pyInt? v with
      | some n =>
        parse_flow_block fuel lines (i + 1) { flow with timeout := some n }
      | none => .error ⟨i + 1, .intLiteral v⟩
    else if pyStartsWith line "retry:" then
      let v := pyStrip ((pySplitOnce ":" line).2.getD "")
      match pyInt? v with
      | some n =>
        parse_flow_block fuel lines (i + 1) { flow with retry_count := n }
      | none => .error ⟨i + 1, .intLiteral v⟩
    else parse_flow_block fuel lines (i + 1) flow

/-- `_parse_function_block`: every line is offered to `_parse_action`,
`None` results are silently dropped; never raises. -/
def parse_function_block : Nat → List String → Nat → FlowFunction →
    FlowFunction × Nat
  | 0, _, i, func => (func, i)
  | fuel + 1, lines, i, func =>
    match lines[i]? with
    | none => (func, i)
    | some raw =>
    let line := pyStrip raw
    if line = "" || pyStartsWith line "#" then
      parse_function_block fuel lines (i + 1) func
    else if !(pyStartsWith line " " || pyStartsWith line "\t") &&
        pyEndsWith line ":" then (func, i)
    else
      match parse_action line with
      | some a =>
        parse_function_block fuel lines (i + 1)
          { func with actions := func.actions ++ [a] }
      | none => parse_function_block fuel lines (i + 1) func

/-- `_parse_blocks`. -/
def parse_blocks : Nat → List String → Nat → FlowModule →
    Except ParseErr FlowModule
  | 0, _, _, m => .ok m
  | fuel + 1, lines, i, m =>
    match lines[i]? with
    | none => .ok m
    | some raw =>
    let line := pyStrip raw
    if line = "" || pyStartsWith line "#" then parse_blocks fuel lines (i + 1) m
    else if pyStartsWith line "flow " then
      let flow_name := pyStripChar ':' (pyDrop 5 line)
      match parse_flow_block fuel lines (i + 1) { name := flow_name } with
      | .ok (flow, i2) =>
        parse_blocks fuel lines i2 { m with flows := dset m.flows flow_name flow }
      | .error e => .error e
    else if pyStartsWith line "function " then
      let func_def := pyStripChar ':' (pyDrop 9 line)
      let func0 := parse_function_signature func_def
      let r := parse_function_block fuel lines (i + 1) func0
      parse_blocks fuel lines r.2
        { m with functions := dset m.functions r.1.name r.1 }
    else if pyStartsWith line "middleware " then
      let middleware_name := pyStripChar ':' (pyDrop 11 line)
      let r := parse_function_block fuel lines (i + 1) { name := middleware_name }
      parse_blocks fuel lines r.2
        { m with functions := dset m.functions ("middleware:" ++ middleware_name) r.1 }
    else parse_blocks fuel lines (i + 1) m

/-- `parse_content` (with `_validate_module`, whose error list is always
empty, elided): split into lines, run `_parse_header` then
`_parse_blocks`; a raised `ValueError` surfaces to `parse_file`, which
reports it with the parser's current 1-based line number. -/
def parse_content (content : String) (filename : String) :
    Except ParseErr FlowModule :=
  let lines := pySplitChar '\n' content
  let m1 := parse_header (parserFuel lines) lines 0 { name := filename }
  parse_blocks (parserFuel lines) lines 0 m1

/-! ### `BaikonEngine` (`baikon_engine.py`) -/

/-- A decoded JSON body, kept opaque (no claim observes its structure). -/
structure JsonVal where
  raw : String
deriving DecidableEq, Repr

/-- `FlowContext` (the bookkeeping fields `events`, `middleware_stack`,
`start_time` are never read by the engine and are omitted). -/
structure Context where
  «variables» : List (String × Value) := []
  session_data : List (String × Value) := []
  user_data : List (String × Value) := []
  api_responses : List (String × JsonVal) := []
  request_id : Option String := none
deriving DecidableEq, Repr

/-- The exceptions that can escape one action:
`noneTypeAttr` is the `AttributeError` from executing a `None` entry of
`flow.actions`; `recursionError` is Python's `RecursionError` (modelled
by fuel exhaustion); `valueError` is a raised `ValueError` (e.g. `float()`
inside `_parse_duration`). -/
inductive EngineError where
  | noneTypeAttr
  | recursionError
  | valueError : String → EngineError
deriving DecidableEq, Repr

/-- `str(e)` for the modelled exceptions (CPython's message texts). -/
def EngineError.toStr : EngineError → String
  | .noneTypeAttr => "'NoneType' object has no attribute 'conditions'"
  | .recursionError => "maximum recursion depth exceeded"
  | .valueError msg => msg

/-- A `FlowMiddleware` instance: the three hooks, modelled as pure
functions of the context (the built-ins' logging side effects and the
rate limiter's mutable window are unobservable to every claim). -/
structure Middleware where
  name : String
  before_flow : Context → Flow → Bool := fun _ _ => true
  after_flow : Context → Flow → List String → List String := fun _ _ r => r
  on_error : Context → EngineError → Bool := fun _ _ => false

/-- A `requests` response as the engine observes it: status code, whether
the body is nonempty (`response.content`), and the result of
`response.json()` (decoded value or the decoder's error message). -/
structure HttpResp where
  status_code : Nat
  content : Bool
  json : Except String JsonVal

/-- Outcome of one `requests.get`/`requests.post` call: either an
exception raised by the library, or a response. -/
inductive HttpResult where
  | raised : String → HttpResult
  | resp : HttpResp → HttpResult

/-- One entry of `self.timers`. -/
structure TimerInfo where
  duration : ℚ
  flow : Flow
  module : FlowModule
  last_run : ℚ
deriving DecidableEq, Repr

/-- One entry of a `self.event_handlers[event]` list. -/
structure HandlerEntry where
  flow : Flow
  module : FlowModule
  trigger : FlowTrigger
deriving DecidableEq, Repr

/-- The built-in `LoggingMiddleware` (only logs; hooks are neutral). -/
def loggingMiddleware : Middleware := { name := "logging" }

/-- The built-in `RateLimitMiddleware`.  Its sliding-window request
counter is engine-level mutable state not modelled here (no claim
involves rate limiting); with an empty window its before-hook admits. -/
def rateLimitMiddleware : Middleware := { name := "rate_limit" }

/-- `BaikonEngine` state.  The last four fields are oracles for the
external capabilities the engine calls into: the `requests` HTTP client
(method, substituted url, optional JSON body, configured timeout),
`json.loads`, the built-in `eval` used by `set` arithmetic, and
`re.search` for runtime-compiled `/…/` trigger patterns (`none` models
`re.error`). -/
structure Engine where
  modules : List (String × FlowModule) := []
  middleware : List (String × Middleware) :=
    [("logging", loggingMiddleware), ("rate_limit", rateLimitMiddleware)]
  timers : List (String × TimerInfo) := []
  event_handlers : List (String × List HandlerEntry) := []
  config : List (String × Value) := []
  http : String → String → Option JsonVal → Value → HttpResult :=
    fun _ _ _ _ => .raised "network not modelled"
  jsonLoads : String → Except String JsonVal :=
    fun _ => .error "json decoding not modelled"
  pyEval : String → Option Value := fun _ => none
  regexSearch : String → String → Option Bool := fun _ _ => none

/-- `_substitute_variables`: for each context variable in insertion
order, replace every occurrence of `\x7bname\x7d` by the stringified
value (the `in` test before `replace` is kept from the source). -/
def substitute_variables (text : String) (ctx : Context) : String :=
  ctx.«variables».foldl (fun t p =>
    let placeholder := "\x7b" ++ p.1 ++ "\x7d"
    if pyContains t placeholder then pyReplace t placeholder p.2.toStr else t)
    text

/-- `_parse_duration`; the `.error` case is the `ValueError` a failing
`float()` raises (unreachable from parser-produced `\d+[smh]?` patterns). -/
def parse_duration (duration_str : String) : Except String (Option ℚ) :=
  let d := pyStrip duration_str
  if pyEndsWith d "s" then
    match pyFloat? (pyDropLast d) with
    | some f => .ok (some f)
    | none => .error ("could not convert string to float: " ++ pyDropLast d)
  else if pyEndsWith d "m" then
    match pyFloat? (pyDropLast d) with
    | some f => .ok (some (f * 60))
    | none => .error ("could not convert string to float: " ++ pyDropLast d)
  else if pyEndsWith d "h" then
    match pyFloat? (pyDropLast d) with
    | some f => .ok (some (f * 3600))
    | none => .error ("could not convert string to float: " ++ pyDropLast d)
  else if pyIsDigit d then .ok (some ((pyFloat? d).getD 0))
  else .ok none

/-- Python `float(value)` on a stored value (used by the ordering
conditions); `none` is a raised conversion error. -/
def pyFloatOfValue : Value → Option ℚ
  | .vInt n => some (n : ℚ)
  | .vRat q => some q
  | .vBool b => some (if b then 1 else 0)
  | .vStr s => pyFloat? s
  | .vNone => none
  | .vRaw s => pyFloat? s

/-- `_evaluate_single_condition`. -/
def evaluate_single_condition (cond : Condition) (ctx : Context) : Bool :=
  let actual : Value := (dget ctx.«variables» cond.«variable»).getD (.vStr "")
  if cond.ctype = "equals" then actual.toStr = cond.value
  else if cond.ctype = "contains" then pyContains actual.toStr cond.value
  else if cond.ctype = "greater_than" then
    match pyFloatOfValue actual, pyFloat? cond.value with
    | some a, some b => a > b
    | _, _ => false
  else if cond.ctype = "less_than" then
    match pyFloatOfValue actual, pyFloat? cond.value with
    | some a, some b => a < b
    | _, _ => false
  else true

/-- `_evaluate_conditions` (vacuously true when empty). -/
def evaluate_conditions (conds : List Condition) (ctx : Context) : Bool :=
  conds.all (fun c => evaluate_single_condition c ctx)

/-- Python `==` between `context.variables.get(name)` and the optional
condition literal in the `variable_equals` branch (a missing variable and
a stored `None` are both the `None` object). -/
def pyEqVarCond : Option Value → Option String → Bool
  | none, none => true
  | some .vNone, none => true
  | some (.vStr s), some t => s = t
  | _, _ => false

/-- `_evaluate_condition_string` (used by the `if` action). -/
def evaluate_condition_string (condition_str0 : String) (ctx : Context) : Bool :=
  let s := substitute_variables condition_str0 ctx
  if pyContains s " equals " then
    let (l, r) := pySplitOnce " equals " s
    pyStripChar '"' (pyStrip l) = pyStripChar '"' (pyStrip (r.getD ""))
  else if pyContains s " contains " then
    let (l, r) := pySplitOnce " contains " s
    pyContains (pyStripChar '"' (pyStrip l)) (pyStripChar '"' (pyStrip (r.getD "")))
  else true

/-- `_match_trigger`. -/
def match_trigger (E : Engine) (user_input : String) (trigger : FlowTrigger)
    (ctx : Context) : Bool :=
  if !evaluate_conditions trigger.conditions ctx then false
  else
    match trigger.type with
    | .user_says =>
      let pattern := pyLower trigger.pattern
      let uiLower := pyLower user_input
      if uiLower = pattern then true
      else
        let pattern_with_vars := substitute_variables pattern ctx
        if uiLower = pyLower pattern_with_vars then true
        else
          let viaRegex : Option Bool :=
            if pyStartsWith pattern "/" && pyEndsWith pattern "/" then
              E.regexSearch (pyInner pattern) user_input
            else none
          match viaRegex with
          | some b => b
          | none =>
            if pyStartsWith pattern "*" && pyEndsWith pattern "*" then
              pyContains uiLower (pyInner pattern)
            else false
    | .variable_equals =>
      let expected : Option String :=
        match trigger.conditions with
        | c :: _ => some c.value
        | [] => none
      pyEqVarCond (dget ctx.«variables» trigger.pattern) expected
    | .always => true
    | _ => false

/-- `requests.Response.raise_for_status` message (shape approximated; the
engine only forwards `str(e)` into the failure text). -/
def raiseForStatusMsg (code : Nat) (url : String) : String :=
  toString code ++
    (if code < 500 then " Client Error for url: " else " Server Error for url: ")
    ++ url

/-- The request/response part of `_execute_api_call`, after method
dispatch: any library exception, a 4xx/5xx status or a JSON decode
failure becomes a failure text; success caches the decoded body (or `{}`
for an empty body) under the substituted url. -/
def api_request (E : Engine) (method url : String) (body : Option JsonVal)
    (ctx : Context) : Context × Except EngineError (Option String) :=
  match E.http method url body ((dget E.config "api_timeout").getD (.vInt 10)) with
  | .raised msg => (ctx, .ok (some ("API call failed: " ++ msg)))
  | .resp r =>
    if 400 ≤ r.status_code && r.status_code < 600 then
      (ctx, .ok (some ("API call failed: " ++ raiseForStatusMsg r.status_code url)))
    else
      match (if r.content then r.json else .ok ⟨"\x7b\x7d"⟩) with
      | .ok decoded =>
        ({ ctx with api_responses := dset ctx.api_responses url decoded },
          .ok (some ("API call successful: " ++ toString r.status_code)))
      | .error msg => (ctx, .ok (some ("API call failed: " ++ msg)))

/-- `_execute_api_call`: upper-case the method, substitute variables in
the url, dispatch `GET`/`POST` (for `POST`, `json.loads(data)` when data
is nonempty, else `{}`); unsupported methods log and return `None`.  The
whole body is wrapped in `try/except`, so no failure escapes. -/
def execute_api_call (E : Engine) (method0 url0 data : String)
    (ctx : Context) : Context × Except EngineError (Option String) :=
  let method := pyUpper method0
  let url := substitute_variables url0 ctx
  if method = "GET" then api_request E "GET" url none ctx
  else if method = "POST" then
    match (if data ≠ "" then E.jsonLoads data else .ok ⟨"\x7b\x7d"⟩) with
    | .ok jd => api_request E "POST" url (some jd) ctx
    | .error msg => (ctx, .ok (some ("API call failed: " ++ msg)))
  else (ctx, .ok none)

/-- The before-hook sweep of `_execute_flow`: registered middleware in
declared order; the first `False` stops the flow. -/
def before_hooks (E : Engine) (flow : Flow) (ctx : Context) :
    List String → Bool
  | [] => true
  | n :: rest =>
    match dget E.middleware n with
    | some mw =>
      if mw.before_flow ctx flow then before_hooks E flow ctx rest else false
    | none => before_hooks E flow ctx rest

/-- The after-hook sweep (called with the reversed declared order),
each hook transforming the accumulated responses. -/
def after_hooks (E : Engine) (flow : Flow) (ctx : Context)
    (names : List String) (responses : List String) : List String :=
  names.foldl (fun rs n =>
    match dget E.middleware n with
    | some mw => mw.after_flow ctx flow rs
    | none => rs) responses

/-- The error-hook sweep: registered middleware in declared (forward)
order; `true` as soon as one hook reports handled. -/
def error_handled (E : Engine) (ctx : Context) (e : EngineError) :
    List String → Bool
  | [] => false
  | n :: rest =>
    match dget E.middleware n with
    | some mw =>
      if mw.on_error ctx e then true else error_handled E ctx e rest
    | none => error_handled E ctx e rest

mutual
/-- `_execute_action`.  The state (context) is threaded explicitly; a
`.error` is a raised exception.  The fuel models the Python stack
(exhaustion = `RecursionError`); `loop` iterations also consume fuel. -/
def execute_action (fuel : Nat) (E : Engine) (action : FlowAction)
    (module : FlowModule) (ctx : Context) :
    Context × Except EngineError (Option String) :=
  match fuel with
  | 0 => (ctx, .error .recursionError)
  | fuel + 1 =>
    if !evaluate_conditions action.conditions ctx then (ctx, .ok none)
    else
      match action.params with
      | .say message =>
        (ctx, .ok (some (substitute_variables message ctx)))
      | .set var_name value =>
        let value2 : Value :=
          match dget ctx.«variables» value with
          | some v => v
          | none =>
            if pyContains value "+" then
              let expr := ctx.«variables».foldl (fun e p =>
                match p.2 with
                | .vInt _ | .vRat _ | .vBool _ => pyReplace e p.1 p.2.toStr
                | _ => e) value
              match E.pyEval expr with
              | some v => v
              | none => .vStr value
            else .vStr value
        ({ ctx with «variables» := dset ctx.«variables» var_name value2 },
          .ok none)
      | .call func_name params =>
        match dget module.functions func_name with
        | some f => call_function fuel E f module ctx params
        | none => (ctx, .ok none)
      | .api method url data => execute_api_call E method url data ctx
      | .emit event data =>
        let ctx2 := emit_event fuel E event data ctx
        (ctx2, .ok none)
      | .wait duration =>
        match parse_duration duration with
        | .ok _ => (ctx, .ok none)
        | .error msg => (ctx, .error (.valueError msg))
      | .ifA condition action_str =>
        if evaluate_condition_string condition ctx then
          match parse_action action_str with
          | some nested => execute_action fuel E nested module ctx
          | none => (ctx, .ok none)
        else (ctx, .ok none)
      | .loop count action_str => exec_loop fuel E count 0 action_str module ctx []

/-- The `range(count)` loop of the `loop` action: set `loop_index`,
re-parse the nested action text, execute; outputs newline-joined. -/
def exec_loop (fuel : Nat) (E : Engine) (remaining idx : Nat)
    (action_str : String) (module : FlowModule) (ctx : Context)
    (responses : List String) :
    Context × Except EngineError (Option String) :=
  match fuel with
  | 0 => (ctx, .error .recursionError)
  | fuel + 1 =>
    match remaining with
    | 0 =>
      (ctx, .ok (if responses.isEmpty then none
        else some (String.intercalate "\n" responses)))
    | remaining + 1 =>
      let ctx1 := { ctx with
        «variables» := dset ctx.«variables» "loop_index" (.vInt idx) }
      match parse_action action_str with
      | some nested =>
        match execute_action fuel E nested module ctx1 with
        | (ctx2, .ok (some r)) =>
          exec_loop fuel E remaining (idx + 1) action_str module ctx2
            (if r = "" then responses else responses ++ [r])
        | (ctx2, .ok none) =>
          exec_loop fuel E remaining (idx + 1) action_str module ctx2 responses
        | (ctx2, .error e) => (ctx2, .error e)
      | none =>
        exec_loop fuel E remaining (idx + 1) action_str module ctx1 responses

/-- `_call_function`: bind comma-split parameters positionally, run the
function's actions, join their outputs with newlines (`None` if none). -/
def call_function (fuel : Nat) (E : Engine) (function : FlowFunction)
    (module : FlowModule) (ctx : Context) (params : String) :
    Context × Except EngineError (Option String) :=
  match fuel with
  | 0 => (ctx, .error .recursionError)
  | fuel + 1 =>
    let ctx1 :=
      if params ≠ "" then
        let param_values := (pySplitAll "," params).map
          (fun p => pyStripChar '"' (pyStrip p))
        let vars2 := function.params.enum.foldl
          (fun vars ip =>
            match param_values[ip.1]? with
            | some v => dset vars ip.2 (.vStr v)
            | none => vars) ctx.«variables»
        { ctx with «variables» := vars2 }
      else ctx
    match run_function_actions fuel E function.actions module ctx1 [] with
    | (ctx2, .ok rs) =>
      (ctx2, .ok (if rs.isEmpty then none
        else some (String.intercalate "\n" rs)))
    | (ctx2, .error e) => (ctx2, .error e)

/-- The action loop of `_call_function` (truthy results collected). -/
def run_function_actions (fuel : Nat) (E : Engine)
    (actions : List FlowAction) (module : FlowModule) (ctx : Context)
    (responses : List String) :
    Context × Except EngineError (List String) :=
  match fuel with
  | 0 => (ctx, .error .recursionError)
  | fuel + 1 =>
    match actions with
    | [] => (ctx, .ok responses)
    | a :: rest =>
      match execute_action fuel E a module ctx with
      | (ctx2, .ok (some r)) =>
        run_function_actions fuel E rest module ctx2
          (if r = "" then responses else responses ++ [r])
      | (ctx2, .ok none) => run_function_actions fuel E rest module ctx2 responses
      | (ctx2, .error e) => (ctx2, .error e)

/-- The action loop of `_execute_flow`; a `None` entry in `flow.actions`
raises the `AttributeError` (`action.conditions` on `None`). -/
def run_flow_actions (fuel : Nat) (E : Engine)
    (actions : List (Option FlowAction)) (module : FlowModule)
    (ctx : Context) (responses : List String) :
    Context × Except EngineError (List String) :=
  match fuel with
  | 0 => (ctx, .error .recursionError)
  | fuel + 1 =>
    match actions with
    | [] => (ctx, .ok responses)
    | none :: _ => (ctx, .error .noneTypeAttr)
    | some a :: rest =>
      match execute_action fuel E a module ctx with
      | (ctx2, .ok (some r)) =>
        run_flow_actions fuel E rest module ctx2
          (if r = "" then responses else responses ++ [r])
      | (ctx2, .ok none) => run_flow_actions fuel E rest module ctx2 responses
      | (ctx2, .error e) => (ctx2, .error e)

/-- `_execute_flow`: before hooks (a `False` returns the so-far-empty
response list), the action loop, after hooks in reverse order; on an
exception the error hooks run in forward order — the first handler
swallows the error (the function then returns Python's implicit `None`),
otherwise the exception is re-raised. -/
def execute_flow (fuel : Nat) (E : Engine) (flow : Flow)
    (module : FlowModule) (ctx : Context) :
    Context × Except EngineError (Option (List String)) :=
  match fuel with
  | 0 => (ctx, .error .recursionError)
  | fuel + 1 =>
    if !before_hooks E flow ctx flow.middleware then (ctx, .ok (some []))
    else
      match run_flow_actions fuel E flow.actions module ctx [] with
      | (ctx2, .ok responses) =>
        (ctx2, .ok (some (after_hooks E flow ctx2 flow.middleware.reverse responses)))
      | (ctx2, .error e) =>
        if error_handled E ctx2 e flow.middleware then (ctx2, .ok none)
        else (ctx2, .error e)

/-- `_emit_event`: run every registered handler flow for the event,
setting `event_<name>_data` first; handler failures are logged and
swallowed. -/
def emit_event (fuel : Nat) (E : Engine) (event_name data : String)
    (ctx : Context) : Context :=
  match fuel with
  | 0 => ctx
  | fuel + 1 =>
    match dget E.event_handlers event_name with
    | none => ctx
    | some handlers => emit_handlers fuel E event_name data handlers ctx

/-- The handler loop of `_emit_event`. -/
def emit_handlers (fuel : Nat) (E : Engine) (event_name data : String)
    (handlers : List HandlerEntry) (ctx : Context) : Context :=
  match fuel with
  | 0 => ctx
  | fuel + 1 =>
    match handlers with
    | [] => ctx
    | h :: rest =>
      let vars2 := dset ctx.«variables» ("event_" ++ event_name ++ "_data")
        (.vStr data)
      let ctx1 := { ctx with «variables» := vars2 }
      let r := execute_flow fuel E h.flow h.module ctx1
      emit_handlers fuel E event_name data rest r.1
end

/-- `create_context`: seed the variables from every loaded module's
defaults in load order, earlier modules winning on name collisions. -/
def create_context (E : Engine) (user_id session_id : Option String)
    (now : Int) : Context :=
  let uid := user_id.getD "anonymous"
  let sid := session_id.getD (toString now)
  let vars := E.modules.foldl (fun vars mp =>
    mp.2.«variables».foldl (fun vs vp =>
      if (dget vs vp.1).isSome then vs else vs ++ [(vp.1, vp.2.value)]) vars) []
  { «variables» := vars,
    user_data := [("id", .vStr uid)],
    session_data := [("id", .vStr sid)],
    api_responses := [],
    request_id := some (uid ++ ":" ++ sid ++ ":" ++ toString now) }

/-- One matched-flow record of `process_input`. -/
structure MatchEntry where
  flow : Flow
  module : FlowModule
  trigger : FlowTrigger
  priority : Int
deriving DecidableEq, Repr

/-- The trigger scan of `process_input`: modules, flows and triggers in
insertion order. -/
def find_matches (E : Engine) (user_input : String) (ctx : Context) :
    List MatchEntry :=
  E.modules.foldl (fun acc mp =>
    mp.2.flows.foldl (fun acc2 fp =>
      fp.2.triggers.foldl (fun acc3 trigger =>
        if match_trigger E user_input trigger ctx then
          acc3 ++ [⟨fp.2, mp.2, trigger, trigger.priority⟩]
        else acc3) acc2) acc) []

/-- Stable insertion for descending-priority order (ties keep
first-discovered order, as Python's stable `sort(reverse=True)`). -/
def insertDesc (x : MatchEntry) : List MatchEntry → List MatchEntry
  | [] => [x]
  | y :: ys => if x.priority > y.priority then x :: y :: ys else y :: insertDesc x ys

/-- `matching_flows.sort(key=priority, reverse=True)` (stable). -/
def sortMatchesDesc (l : List MatchEntry) : List MatchEntry :=
  l.foldl (fun acc x => insertDesc x acc) []

/-- The execution loop of `process_input`: truthy results extend the
responses; an escaped exception becomes one `"Error: …"` line and the
loop continues with the next matched flow. -/
def process_matches (fuel : Nat) (E : Engine) :
    List MatchEntry → Context → List String → List String × Context
  | [], ctx, responses => (responses, ctx)
  | entry :: rest, ctx, responses =>
    match execute_flow fuel E entry.flow entry.module ctx with
    | (ctx2, .ok (some result)) =>
      process_matches fuel E rest ctx2
        (if result.isEmpty then responses else responses ++ result)
    | (ctx2, .ok none) => process_matches fuel E rest ctx2 responses
    | (ctx2, .error e) =>
      process_matches fuel E rest ctx2 (responses ++ ["Error: " ++ e.toStr])

/-- `process_input` (with a caller-provided context, as the CLI does). -/
def process_input (fuel : Nat) (E : Engine) (user_input0 : String)
    (ctx : Context) : List String × Context :=
  let user_input := pyStrip user_input0
  process_matches fuel E (sortMatchesDesc (find_matches E user_input ctx)) ctx []

/-- The trigger loop of `_setup_timers` for one flow: keyed
`module:flow:pattern`, `last_run` initialised to load time; a zero or
unparsed duration registers nothing; the `Bool` is `false` when
`_parse_duration` raised (aborting the load, partial inserts kept, as the
in-place mutation does). -/
def setup_timers_trigs (mname fname : String) (flow : Flow)
    (module : FlowModule) (now : ℚ) :
    List FlowTrigger → List (String × TimerInfo) →
      List (String × TimerInfo) × Bool
  | [], ts => (ts, true)
  | trig :: rest, ts =>
    if trig.type = .timer then
      match parse_duration trig.pattern with
      | .error _ => (ts, false)
      | .ok none => setup_timers_trigs mname fname flow module now rest ts
      | .ok (some d) =>
        if d = 0 then setup_timers_trigs mname fname flow module now rest ts
        else
          setup_timers_trigs mname fname flow module now rest
            (dset ts (mname ++ ":" ++ fname ++ ":" ++ trig.pattern)
              ⟨d, flow, module, now⟩)
    else setup_timers_trigs mname fname flow module now rest ts

/-- `_setup_timers` over all flows of a module. -/
def setup_timers (timers : List (String × TimerInfo)) (module : FlowModule)
    (now : ℚ) : List (String × TimerInfo) × Bool :=
  module.flows.foldl (fun acc fp =>
    if acc.2 then
      setup_timers_trigs module.name fp.1 fp.2 module now fp.2.triggers acc.1
    else acc) (timers, true)

/-- `_setup_event_handlers`: append one entry per `event` trigger to the
event's handler list (creating it when absent) — appends, never clears. -/
def setup_event_handlers (eh : List (String × List HandlerEntry))
    (module : FlowModule) : List (String × List HandlerEntry) :=
  module.flows.foldl (fun eh2 fp =>
    fp.2.triggers.foldl (fun eh3 trig =>
      if trig.type = .event then
        dset eh3 trig.pattern ((dget eh3 trig.pattern).getD [] ++
          [⟨fp.2, module, trig⟩])
      else eh3) eh2) eh

/-- `load_module` with the file read abstracted away (`content` is the
file's text, `filepath` its name): parse, optionally rename, register the
module, set up timers and event handlers.  A parse failure (or the
unreachable duration `ValueError`) is caught and reported as `false`; the
registrations made before the failure persist, as the in-place mutations
do. -/
def load_module (E : Engine) (content filepath : String)
    (module_name : Option String) (now : ℚ) : Engine × Bool :=
  match parse_content content filepath with
  | .error _ => (E, false)
  | .ok module0 =>
    let module := match module_name with
      | some n => { module0 with name := n }
      | none => module0
    let E1 := { E with modules := dset E.modules module.name module }
    match setup_timers E1.timers module now with
    | (ts, true) =>
      let E2 := { E1 with timers := ts }
      ({ E2 with event_handlers := setup_event_handlers E2.event_handlers module },
        true)
    | (ts, false) => ({ E1 with timers := ts }, false)

/-- What one scheduler tick did to one timer, kept for specification
purposes (the Python code discards both the fresh context and the flow's
result). -/
structure TimerRun where
  context : Context
  result : Except EngineError (Option (List String))

/-- One timer's treatment in `run_timers`: when `now - last_run ≥
duration`, build a fresh context, run the flow, and — only when it did
not raise — advance `last_run` to `now`. -/
def timer_step (fuel : Nat) (E : Engine) (now : ℚ) (ti : TimerInfo) :
    TimerInfo × Option TimerRun :=
  if now - ti.last_run ≥ ti.duration then
    let ctx := create_context E none none ⌊now⌋
    let r := execute_flow fuel E ti.flow ti.module ctx
    match r.2 with
    | .ok res => ({ ti with last_run := now }, some ⟨ctx, .ok res⟩)
    | .error e => (ti, some ⟨ctx, .error e⟩)
  else (ti, none)

/-- `run_timers`: every registered timer gets one `timer_step`; the run
log is returned alongside (Python discards it). -/
def run_timers (fuel : Nat) (E : Engine) (now : ℚ) :
    Engine × List (String × Option TimerRun) :=
  let stepped := E.timers.map (fun p => (p.1, timer_step fuel E now p.2))
  ({ E with timers := stepped.map (fun p => (p.1, (p.2).1)) },
    stepped.map (fun p => (p.1, (p.2).2)))

/-! ## Claim analysis

Concrete scripts used by the claims. -/

/-- The C1 script: a dispatch-style flow whose trigger names `greet`. -/
def script_always : String :=
  "flow main:\n    when always -> call greet\n\nfunction greet:\n    say \"hello\"\n"

/-- The engine after loading `script_always` under the name `main`. -/
def engine_always : Engine :=
  (load_module {} script_always "test.flow" (some "main") 0).1

/-- What the parser actually produces for `script_always`: the `always`
trigger is recorded, but the target function name `greet` is discarded
(`FlowTrigger` has no field for it) and the flow's direct action list is
empty. -/
def module_always : FlowModule :=
  { name := "main",
    flows := [("main", { name := "main", triggers := [⟨.always, "", [], 0⟩] })],
    functions := [("greet",
      { name := "greet", actions := [⟨.say "hello", []⟩] })] }

/-- `engine_always`'s module registry, concretely. -/
theorem engine_always_modules : engine_always.modules = [("main", module_always)] := by
  decide

/-- The C2 script: a counter incremented by a dispatch-called function. -/
def script_count : String :=
  "var count: int = 0\n\nflow main:\n    when user says \"hi\" -> call bump\n\nfunction bump:\n    set count = count + 1\n    say \"count={count}\"\n"

/-- The engine after loading `script_count` under the name `main`. -/
def engine_count : Engine :=
  (load_module {} script_count "test.flow" (some "main") 0).1

/-- A fresh context over `engine_count` (seeded with `count = "0"`:
variable defaults are stored as strings). -/
def ctx_count : Context := create_context engine_count none none 0

/-- C1: with `when always -> call greet` and `greet` doing `say "hello"`,
`process_input` matches the flow on every input but then executes only
the flow's own (empty) action list — `_parse_trigger` drops the captured
target function name and `_execute_flow` never consults it — so the
output is empty for every input, never containing `"hello"`. -/
theorem C1_trigger_target_function_never_runs :
    (load_module {} script_always "test.flow" (some "main") 0).2 = true ∧
    dget engine_always.modules "main" = some module_always ∧
    dget module_always.functions "greet" =
      some { name := "greet", actions := [⟨.say "hello", []⟩] } ∧
    (∀ (fuel : Nat) (input : String) (ctx : Context),
      process_input (fuel + 2) engine_always input ctx = ([], ctx)) := by
  refine ⟨by decide, by decide, by decide, fun fuel input ctx => ?_⟩
  have hmods := engine_always_modules
  simp only [process_input, find_matches, hmods, module_always, List.foldl,
    match_trigger, evaluate_conditions, List.all_nil, Bool.not_true,
    Bool.false_eq_true, if_false, List.nil_append]
  simp only [sortMatchesDesc, insertDesc, List.foldl, process_matches,
    execute_flow, before_hooks, run_flow_actions, after_hooks, List.reverse_nil,
    List.isEmpty_nil, if_true]
  simp

deriving instance DecidableEq for Except

/-- What the parser actually produces for `script_count`: the `user_says`
trigger keeps only the text `"hi"` (target `bump` discarded), the flow's
own action list is empty, `set count = count + 1` is truncated by the
word-valued `set` pattern to `set count = count` (the `+ 1` is trailing
text `re.match` ignores), and the declared default `0` is stored as the
string `"0"`. -/
def module_count : FlowModule :=
  { name := "main",
    flows := [("main", { name := "main", triggers := [⟨.user_says, "hi", [], 0⟩] })],
    functions := [("bump",
      { name := "bump",
        actions := [⟨.set "count" "count", []⟩, ⟨.say "count={count}", []⟩] })],
    «variables» := [("count", ⟨"count", .vStr "0", "int", false⟩)] }

/-- `engine_count`'s module registry, concretely. -/
theorem engine_count_modules : engine_count.modules = [("main", module_count)] := by
  decide

/-- C2: the scripted scenario produces no output at all.  The first and
second `process_input "hi"` both return `[]` (the matched flow's own
action list is empty; the trigger's target `bump` was discarded at parse
time).  Even invoking `bump` directly, its `set count = count + 1` was
parsed as `set count = count` (a self-assignment) over the string-valued
default `"0"`, so it answers `"count=0"`, not `"count=1"`. -/
theorem C2_counter_scenario_produces_no_output :
    (load_module {} script_count "test.flow" (some "main") 0).2 = true ∧
    dget ctx_count.«variables» "count" = some (.vStr "0") ∧
    (process_input 1000 engine_count "hi" ctx_count).1 = [] ∧
    (process_input 1000 engine_count "hi"
      (process_input 1000 engine_count "hi" ctx_count).2).1 = [] ∧
    (call_function 1000 engine_count
        ((dget module_count.functions "bump").getD { name := "" })
        module_count ctx_count "").2 = .ok (some "count=0") := by
  decide

/-- The trigger the parser produces for
`when var mood equals "happy" -> call celebrate`: the quoted literal
`"happy"` is captured by group 2 but never stored — the conditions come
from the (absent) `if` clause, so they are empty. -/
def trigger_mood : FlowTrigger := ⟨.variable_equals, "mood", [], 0⟩

/-- C3: a `variable_equals` trigger without an `if` clause does *not*
compare the variable to the declared literal: `_match_trigger` compares
`context.variables.get(name)` to `conditions[0]['value']` — `None` when
no conditions were parsed — so the trigger fails when `mood` *is*
`"happy"` and succeeds exactly when the variable is missing (or `None`). -/
theorem C3_variable_equals_literal_dropped :
    parse_trigger "when var mood equals \"happy\" -> call celebrate" =
      some trigger_mood ∧
    match_trigger {} "anything" trigger_mood
      { «variables» := [("mood", .vStr "happy")] } = false ∧
    match_trigger {} "anything" trigger_mood { «variables» := [] } = true := by
  decide

/-- C4 (counterexample): the engine has no one-sided wildcard forms.
Pattern `hi*` does not match `"hi there"` (the claim says it does), and
pattern `*hi` does not match `"oh hi"` (the claim's suffix form). -/
theorem C4_one_sided_wildcards_rejected :
    match_trigger {} "hi there" ⟨.user_says, "hi*", [], 0⟩ {} = false ∧
    match_trigger {} "oh hi" ⟨.user_says, "*hi", [], 0⟩ {} = false := by
  decide

/-- C4 (amended): only the two-sided `*mid*` wildcard is implemented.
Over a context with no variables: `*weather*` matches exactly the inputs
whose lowercase form contains `"weather"`, while `hi*` and `*hi` get no
wildcard treatment at all — they match only the literal texts `"hi*"` /
`"*hi"` (case-insensitively). -/
theorem C4_wildcard_matching :
    (∀ (E : Engine) (input : String) (ctx : Context), ctx.«variables» = [] →
      match_trigger E input ⟨.user_says, "*weather*", [], 0⟩ ctx =
        pyContains (pyLower input) "weather") ∧
    (∀ (E : Engine) (input : String) (ctx : Context), ctx.«variables» = [] →
      match_trigger E input ⟨.user_says, "hi*", [], 0⟩ ctx =
        decide (pyLower input = "hi*")) ∧
    (∀ (E : Engine) (input : String) (ctx : Context), ctx.«variables» = [] →
      match_trigger E input ⟨.user_says, "*hi", [], 0⟩ ctx =
        decide (pyLower input = "*hi")) := by
  refine ⟨fun E input ctx h => ?_, fun E input ctx h => ?_, fun E input ctx h => ?_⟩
  all_goals
    simp only [match_trigger, evaluate_conditions, List.all_nil, Bool.not_true,
      Bool.false_eq_true, if_false, substitute_variables, h, List.foldl_nil]
  · have hlow : pyLower "*weather*" = "*weather*" := by decide
    simp only [hlow]
    by_cases hc : pyLower input = "*weather*"
    · rw [if_pos hc, hc]
      decide
    · rw [if_neg hc, if_neg hc]
      have h1 : pyStartsWith "*weather*" "/" = false := by decide
      have h2 : (pyStartsWith "*weather*" "*" && pyEndsWith "*weather*" "*") = true := by
        decide
      have h3 : pyInner "*weather*" = "weather" := by decide
      simp [h1, h2, h3]
  · have hlow : pyLower "hi*" = "hi*" := by decide
    simp only [hlow]
    by_cases hc : pyLower input = "hi*"
    · rw [if_pos hc]
      simp [hc]
    · rw [if_neg hc, if_neg hc]
      have h1 : pyStartsWith "hi*" "/" = false := by decide
      have h2 : pyStartsWith "hi*" "*" = false := by decide
      simp [h1, h2, hc]
  · have hlow : pyLower "*hi" = "*hi" := by decide
    simp only [hlow]
    by_cases hc : pyLower input = "*hi"
    · rw [if_pos hc]
      simp [hc]
    · rw [if_neg hc, if_neg hc]
      have h1 : pyStartsWith "*hi" "/" = false := by decide
      have h2 : pyEndsWith "*hi" "*" = false := by decide
      simp [h1, h2, hc]

/-- C4 witness: the amended wildcard statement at the claim's own
examples. -/
theorem C4_wildcard_matching_witness :
    match_trigger {} "what is the weather like?"
      ⟨.user_says, "*weather*", [], 0⟩ ({} : Context) =
      pyContains (pyLower "what is the weather like?") "weather" ∧
    match_trigger {} "hi there" ⟨.user_says, "hi*", [], 0⟩ ({} : Context) =
      decide (pyLower "hi there" = "hi*") :=
  ⟨C4_wildcard_matching.1 {} "what is the weather like?" {} rfl,
    C4_wildcard_matching.2.1 {} "hi there" {} rfl⟩

/-- A context in which `b`'s value mentions `a`'s placeholder; since `a`
is iterated before `b`, a first substitution pass can *introduce* the
text `\x7ba\x7d` that only a second pass resolves. -/
def ctx_sub : Context :=
  { «variables» := [("a", .vStr "x"), ("b", .vStr "{a}")] }

/-- C10 (counterexample): substitution is not idempotent for every
context and input.  On `ctx_sub` and the input `"{b}"`, one pass yields
`"{a}"` and a second pass yields `"x"`. -/
theorem C10_substitution_not_idempotent :
    substitute_variables "{b}" ctx_sub = "{a}" ∧
    substitute_variables (substitute_variables "{b}" ctx_sub) ctx_sub = "x" ∧
    substitute_variables (substitute_variables "{b}" ctx_sub) ctx_sub ≠
      substitute_variables "{b}" ctx_sub := by
  decide

/-- If a text contains no placeholder of any context variable, one
substitution pass leaves it unchanged. -/
theorem subst_no_placeholder (vars : List (String × Value)) (t : String)
    (h : ∀ p ∈ vars, pyContains t ("\x7b" ++ p.1 ++ "\x7d") = false) :
    vars.foldl (fun t p =>
      let placeholder := "\x7b" ++ p.1 ++ "\x7d"
      if pyContains t placeholder then pyReplace t placeholder p.2.toStr
      else t) t = t := by
  induction vars generalizing t with
  | nil => rfl
  | cons p rest ih =>
    simp only [List.foldl]
    rw [if_neg (by simp [h p (List.mem_cons_self p rest)])]
    exact ih t (fun q hq => h q (List.mem_cons_of_mem p hq))

/-- C10 (amended): substitution is idempotent *provided* the result of
the first pass no longer contains any context variable's placeholder —
the `so the result of one substitution is a fixed point` reading holds
only under that proviso (the counterexample above shows a value can
re-introduce a placeholder of a variable already iterated). -/
theorem C10_substitution_fixed_point (ctx : Context) (text : String)
    (h : ∀ p ∈ ctx.«variables»,
      pyContains (substitute_variables text ctx) ("\x7b" ++ p.1 ++ "\x7d") = false) :
    substitute_variables (substitute_variables text ctx) ctx =
      substitute_variables text ctx := by
  have := subst_no_placeholder ctx.«variables» (substitute_variables text ctx) h
  simpa [substitute_variables] using this

/-- C10 witness: the fixed-point statement at a concrete context. -/
theorem C10_substitution_fixed_point_witness :
    substitute_variables
        (substitute_variables "{a}" { «variables» := [("a", .vStr "1")] })
        { «variables» := [("a", .vStr "1")] } =
      substitute_variables "{a}" { «variables» := [("a", .vStr "1")] } :=
  C10_substitution_fixed_point { «variables» := [("a", .vStr "1")] } "{a}"
    (by decide)

/-- The forward error-hook sweep finds exactly the first declared
middleware that is registered and reports the error handled. -/
theorem error_handled_eq_find (E : Engine) (ctx : Context) (e : EngineError)
    (names : List String) :
    error_handled E ctx e names =
      (names.find? (fun n =>
        ((dget E.middleware n).map (fun mw => mw.on_error ctx e)).getD
          false)).isSome := by
  induction names with
  | nil => rfl
  | cons n rest ih =>
    simp only [error_handled, List.find?]
    cases hm : dget E.middleware n with
    | none => simpa [hm] using ih
    | some mw =>
      by_cases hb : mw.on_error ctx e = true
      · simp [hm, hb]
      · simpa [hm, hb] using ih

/-- C7: when the action loop of a flow raises, the error hooks of the
flow's declared middleware run in forward order and the first one that
reports handled swallows the error (the flow yields Python's `None`);
with no handler the exception is re-raised, and the dispatch loop turns
it into the single `"Error: …"` line for that flow and continues with
the remaining matched flows over the mutated context. -/
theorem C7_action_error_middleware_and_dispatch (E : Engine) (flow : Flow)
    (module : FlowModule) (ctx ctx2 : Context) (e : EngineError) (fuel : Nat)
    (trigger : FlowTrigger) (priority : Int) (rest : List MatchEntry)
    (responses : List String)
    (hbefore : before_hooks E flow ctx flow.middleware = true)
    (hrun : run_flow_actions fuel E flow.actions module ctx [] = (ctx2, .error e)) :
    (execute_flow (fuel + 1) E flow module ctx =
      if error_handled E ctx2 e flow.middleware then (ctx2, .ok none)
      else (ctx2, .error e)) ∧
    (error_handled E ctx2 e flow.middleware =
      (flow.middleware.find? (fun n =>
        ((dget E.middleware n).map (fun mw => mw.on_error ctx2 e)).getD
          false)).isSome) ∧
    (error_handled E ctx2 e flow.middleware = true →
      process_matches (fuel + 1) E (⟨flow, module, trigger, priority⟩ :: rest)
        ctx responses = process_matches (fuel + 1) E rest ctx2 responses) ∧
    (error_handled E ctx2 e flow.middleware = false →
      process_matches (fuel + 1) E (⟨flow, module, trigger, priority⟩ :: rest)
        ctx responses =
        process_matches (fuel + 1) E rest ctx2
          (responses ++ ["Error: " ++ e.toStr])) := by
  have hexec : execute_flow (fuel + 1) E flow module ctx =
      if error_handled E ctx2 e flow.middleware then (ctx2, .ok none)
      else (ctx2, .error e) := by
    simp only [execute_flow, hbefore, Bool.not_true, Bool.false_eq_true,
      if_false, hrun]
  refine ⟨hexec, error_handled_eq_find E ctx2 e flow.middleware, ?_, ?_⟩
  · intro hh
    simp only [process_matches, hexec, hh, if_true]
  · intro hh
    simp only [process_matches, hexec, hh, Bool.false_eq_true, if_false]

/-- A flow whose action list holds the `None` entry a malformed
`say`-style line leaves behind: executing it raises the
`AttributeError`. -/
def flow_raising : Flow :=
  { name := "boom", actions := [none], middleware := ["m1", "m2"] }

/-- An engine whose registry has a non-handling `m1` and a handling
`m2`. -/
def engine_two_mw : Engine :=
  { middleware :=
      [("m1", { name := "m1" }),
        ("m2", { name := "m2", on_error := fun _ _ => true })] }

/-- C7 witness: the theorem applied to `flow_raising` on `engine_two_mw`
(the `AttributeError` from the `None` action is handled by `m2`). -/
theorem C7_action_error_middleware_and_dispatch_witness :
    execute_flow 2 engine_two_mw flow_raising { name := "mod" } {} =
      if error_handled engine_two_mw {} .noneTypeAttr flow_raising.middleware
      then ({}, .ok none) else ({}, .error .noneTypeAttr) :=
  (C7_action_error_middleware_and_dispatch engine_two_mw flow_raising
    { name := "mod" } {} {} .noneTypeAttr 1 ⟨.always, "", [], 0⟩ 0 [] []
    rfl rfl).1

/-- The request/response stage of the `api` action returns normally for
every oracle outcome. -/
theorem api_request_ok (E : Engine) (method url : String)
    (body : Option JsonVal) (ctx : Context) :
    ∃ r, (api_request E method url body ctx).2 = .ok r := by
  unfold api_request
  cases E.http method url body ((dget E.config "api_timeout").getD (.vInt 10)) with
  | raised msg => exact ⟨_, rfl⟩
  | resp r =>
    dsimp only
    by_cases hs : (400 ≤ r.status_code && r.status_code < 600) = true
    · rw [if_pos hs]
      exact ⟨_, rfl⟩
    · rw [if_neg hs]
      cases (if r.content = true then r.json else Except.ok ⟨"\x7b\x7d"⟩) with
      | ok d => exact ⟨_, rfl⟩
      | error m => exact ⟨_, rfl⟩

/-- C8: the `api` action never lets a failure escape.  (1) Every call
returns normally (no exception).  (2) A method other than `GET`/`POST`
(after upper-casing) produces no output.  (3) A successful `GET` — no
library exception, non-4xx/5xx status, decodable body — caches the
decoded body under the variable-substituted url and returns the success
status string.  (4) A raised library exception and (5) an error status
and (6) a JSON decode failure each return the failure string instead of
raising, leaving the response cache untouched. -/
theorem C8_api_call_never_raises :
    (∀ (E : Engine) (method url data : String) (ctx : Context),
      ∃ r, (execute_api_call E method url data ctx).2 = .ok r) ∧
    (∀ (E : Engine) (method url data : String) (ctx : Context),
      pyUpper method ≠ "GET" → pyUpper method ≠ "POST" →
      execute_api_call E method url data ctx = (ctx, .ok none)) ∧
    (∀ (E : Engine) (url data : String) (ctx : Context) (resp : HttpResp)
      (body : JsonVal),
      E.http "GET" (substitute_variables url ctx) none
        ((dget E.config "api_timeout").getD (.vInt 10)) = .resp resp →
      (400 ≤ resp.status_code && resp.status_code < 600) = false →
      resp.content = true → resp.json = .ok body →
      execute_api_call E "get" url data ctx =
        ({ ctx with api_responses := dset ctx.api_responses (substitute_variables url ctx) body },
          .ok (some ("API call successful: " ++ toString resp.status_code)))) ∧
    (∀ (E : Engine) (url data : String) (ctx : Context) (msg : String),
      E.http "GET" (substitute_variables url ctx) none
        ((dget E.config "api_timeout").getD (.vInt 10)) = .raised msg →
      execute_api_call E "get" url data ctx =
        (ctx, .ok (some ("API call failed: " ++ msg)))) ∧
    (∀ (E : Engine) (url data : String) (ctx : Context) (resp : HttpResp),
      E.http "GET" (substitute_variables url ctx) none
        ((dget E.config "api_timeout").getD (.vInt 10)) = .resp resp →
      (400 ≤ resp.status_code && resp.status_code < 600) = true →
      execute_api_call E "get" url data ctx =
        (ctx, .ok (some ("API call failed: " ++
          raiseForStatusMsg resp.status_code (substitute_variables url ctx))))) ∧
    (∀ (E : Engine) (url data : String) (ctx : Context) (resp : HttpResp)
      (msg : String),
      E.http "GET" (substitute_variables url ctx) none
        ((dget E.config "api_timeout").getD (.vInt 10)) = .resp resp →
      (400 ≤ resp.status_code && resp.status_code < 600) = false →
      resp.content = true → resp.json = .error msg →
      execute_api_call E "get" url data ctx =
        (ctx, .ok (some ("API call failed: " ++ msg)))) := by
  have hget : pyUpper "get" = "GET" := by decide
  refine ⟨?_, ?_, ?_, ?_, ?_, ?_⟩
  · intro E method url data ctx
    unfold execute_api_call
    by_cases h1 : pyUpper method = "GET"
    · rw [if_pos h1]
      exact api_request_ok E "GET" (substitute_variables url ctx) none ctx
    · rw [if_neg h1]
      by_cases h2 : pyUpper method = "POST"
      · rw [if_pos h2]
        cases hj : (if data ≠ "" then E.jsonLoads data else .ok ⟨"\x7b\x7d"⟩) with
        | ok jd =>
          exact api_request_ok E "POST" (substitute_variables url ctx) (some jd) ctx
        | error m => exact ⟨_, rfl⟩
      · rw [if_neg h2]
        exact ⟨_, rfl⟩
  · intro E method url data ctx h1 h2
    unfold execute_api_call
    rw [if_neg h1, if_neg h2]
  · intro E url data ctx resp body hhttp hstatus hcontent hjson
    simp only [execute_api_call, api_request, hget, hhttp, hstatus, hcontent,
      hjson]
    simp
  · intro E url data ctx msg hhttp
    simp only [execute_api_call, api_request, hget, hhttp]
    simp
  · intro E url data ctx resp hhttp hstatus
    simp only [execute_api_call, api_request, hget, hhttp, hstatus]
    simp
  · intro E url data ctx resp msg hhttp hstatus hcontent hjson
    simp only [execute_api_call, api_request, hget, hhttp, hstatus, hcontent,
      hjson]
    simp

/-- An engine whose HTTP oracle always answers 200 with a decodable
body, and one whose oracle always raises. -/
def engine_http_ok : Engine :=
  { http := fun _ _ _ _ => .resp ⟨200, true, .ok ⟨"body"⟩⟩ }

/-- The always-raising variant. -/
def engine_http_down : Engine :=
  { http := fun _ _ _ _ => .raised "connection refused" }

/-- C8 witness: the success, network-failure and unsupported-method
conclusions at concrete oracles. -/
theorem C8_api_call_never_raises_witness :
    execute_api_call engine_http_ok "get" "http://u" "" {} =
      ({ ({} : Context) with api_responses := dset ({} : Context).api_responses (substitute_variables "http://u" {}) ⟨"body"⟩ },
        .ok (some ("API call successful: " ++ toString 200))) ∧
    execute_api_call engine_http_down "get" "http://u" "" {} =
      ({}, .ok (some ("API call failed: " ++ "connection refused"))) ∧
    execute_api_call engine_http_ok "put" "http://u" "" {} = ({}, .ok none) :=
  ⟨C8_api_call_never_raises.2.2.1 engine_http_ok "http://u" "" {}
      ⟨200, true, .ok ⟨"body"⟩⟩ ⟨"body"⟩ rfl (by decide) rfl rfl,
    C8_api_call_never_raises.2.2.2.1 engine_http_down "http://u" "" {}
      "connection refused" rfl,
    C8_api_call_never_raises.2.1 engine_http_ok "put" "http://u" "" {}
      (by decide) (by decide)⟩

/-- A 2-second timer over a flow that raises (its action list carries the
`None` a malformed action line leaves), registered at time 0. -/
def timer_err : TimerInfo := ⟨2, flow_raising, { name := "mod" }, 0⟩

/-- C9 (counterexample): when the timer's flow raises, `last_run` is
*not* set — the tick at `now = 2` runs the flow (`2 - 0 ≥ 2`) but leaves
the timer unchanged (`last_run` still `0`), and the next tick at
`now = 3` runs it again: two runs inside one 2-second window, against
the claim's `a tick … runs … and then sets last_run = now` and its `at
most once per d-second window`. -/
theorem C9_failing_run_reruns_within_window :
    timer_step 10 {} 2 timer_err =
      (timer_err, some ⟨create_context {} none none ⌊(2 : ℚ)⌋,
        .error .noneTypeAttr⟩) ∧
    timer_step 10 {} 3 timer_err =
      (timer_err, some ⟨create_context {} none none ⌊(3 : ℚ)⌋,
        .error .noneTypeAttr⟩) := by
  have hexec : ∀ (ctx : Context),
      execute_flow 10 ({} : Engine) flow_raising { name := "mod" } ctx =
        (ctx, .error .noneTypeAttr) := fun ctx => rfl
  constructor
  · simp only [timer_step, timer_err]
    rw [if_pos (show ((2 : ℚ) - 0 ≥ 2) by norm_num)]
    rw [hexec]
  · simp only [timer_step, timer_err]
    rw [if_pos (show ((3 : ℚ) - 0 ≥ 2) by norm_num)]
    rw [hexec]

/-- C9 (amended): a tick runs a timer's flow exactly when
`now - last_run ≥ duration`, always in a fresh context built by
`create_context`; a *successful* run sets `last_run = now` while a
raising run leaves it unchanged; `last_run` never moves backward (and
strictly increases across runs that change it, the registered durations
being positive); and after a firing at time `now`, no tick earlier than
`now + duration` runs the flow again. -/
theorem C9_timer_window (fuel : Nat) (E : Engine) (now t2 : ℚ)
    (ti : TimerInfo) :
    (¬ now - ti.last_run ≥ ti.duration → timer_step fuel E now ti = (ti, none)) ∧
    (now - ti.last_run ≥ ti.duration →
      (timer_step fuel E now ti).2 =
        some ⟨create_context E none none ⌊now⌋,
          (execute_flow fuel E ti.flow ti.module
            (create_context E none none ⌊now⌋)).2⟩ ∧
      (∀ res, (execute_flow fuel E ti.flow ti.module
          (create_context E none none ⌊now⌋)).2 = .ok res →
        (timer_step fuel E now ti).1 = { ti with last_run := now }) ∧
      (∀ e, (execute_flow fuel E ti.flow ti.module
          (create_context E none none ⌊now⌋)).2 = .error e →
        (timer_step fuel E now ti).1 = ti)) ∧
    (0 < ti.duration → ti.last_run ≤ (timer_step fuel E now ti).1.last_run) ∧
    (0 < ti.duration → (timer_step fuel E now ti).1.last_run ≠ ti.last_run →
      ti.last_run < (timer_step fuel E now ti).1.last_run) ∧
    (t2 < now + ti.duration →
      timer_step fuel E t2 { ti with last_run := now } =
        ({ ti with last_run := now }, none)) := by
  refine ⟨fun hg => ?_, fun hg => ?_, fun hd => ?_, fun hd hne => ?_, fun ht => ?_⟩
  · simp only [timer_step, if_neg hg]
  · simp only [timer_step, if_pos hg]
    cases hres : (execute_flow fuel E ti.flow ti.module
        (create_context E none none ⌊now⌋)).2 with
    | ok res =>
      refine ⟨by simp [hres], fun r hr => by simp [hres], fun e he => ?_⟩
      exact absurd he (by simp)
    | error e =>
      refine ⟨by simp [hres], fun r hr => ?_, fun e2 he => by simp [hres]⟩
      exact absurd hr (by simp)
  · by_cases hg : now - ti.last_run ≥ ti.duration
    · have hlt : ti.last_run ≤ now := by linarith
      simp only [timer_step, if_pos hg]
      cases hres : (execute_flow fuel E ti.flow ti.module
          (create_context E none none ⌊now⌋)).2 with
      | ok res => simpa using hlt
      | error e => simp
    · simp [timer_step, if_neg hg]
  · by_cases hg : now - ti.last_run ≥ ti.duration
    · have hlt : ti.last_run < now := by linarith
      simp only [timer_step, if_pos hg] at hne ⊢
      cases hres : (execute_flow fuel E ti.flow ti.module
          (create_context E none none ⌊now⌋)).2 with
      | ok res => simpa using hlt
      | error e =>
        rw [hres] at hne
        simp at hne
    · simp only [timer_step, if_neg hg] at hne ⊢
      exact absurd rfl hne
  · have hg : ¬ t2 - now ≥ ti.duration := by
      intro hcon
      simp only [ge_iff_le] at hcon
      linarith
    simp only [timer_step]
    rw [if_neg (by simpa using hg)]

/-- A healthy 2-second timer (empty flow body, cannot raise). -/
def timer_ok : TimerInfo := ⟨2, { name := "t" }, { name := "mod" }, 0⟩

/-- C9 witness: the amended statement applied concretely — a tick at
`t = 3` after a firing at `t = 2` of the 2-second timer does not run. -/
theorem C9_timer_window_witness :
    timer_step 5 {} 3 { timer_ok with last_run := 2 } =
      ({ timer_ok with last_run := 2 }, none) :=
  (C9_timer_window 5 {} 2 3 timer_ok).2.2.2.2 (by norm_num [timer_ok])

/-- Overwriting the matching entries of an association list does not
change its key sequence. -/
theorem dset_update_keys (l : List (String × α)) (k : String) (v : α) :
    (l.map (fun p => if p.1 = k then (k, v) else p)).map Prod.fst =
      l.map Prod.fst := by
  induction l with
  | nil => rfl
  | cons p rest ih =>
    by_cases h : p.1 = k <;> simp [h, ih]

/-- If the key occurs, the overwrite pass rewrites its first occurrence
to the new pair, which `find?` then returns. -/
theorem find?_map_update (l : List (String × α)) (k : String) (v : α)
    (h : (l.find? (fun p => p.1 = k)).isSome = true) :
    (l.map (fun p => if p.1 = k then (k, v) else p)).find?
      (fun p => p.1 = k) = some (k, v) := by
  induction l with
  | nil => simp at h
  | cons p rest ih =>
    by_cases hp : p.1 = k
    · simp [List.find?, hp]
    · have h2 : (rest.find? (fun p => p.1 = k)).isSome = true := by
        simpa [List.find?, hp] using h
      simp [List.find?, hp, ih h2]

/-- `find?` skips a prefix in which it finds nothing. -/
theorem find?_none_append (l1 l2 : List (String × α))
    (q : String × α → Bool) (h : l1.find? q = none) :
    (l1 ++ l2).find? q = l2.find? q := by
  induction l1 with
  | nil => rfl
  | cons p rest ih =>
    by_cases hp : q p = true
    · simp [List.find?, hp] at h
    · have h2 : rest.find? q = none := by simpa [List.find?, hp] using h
      simp [List.find?, hp, ih h2]

/-- A Python dict assignment makes the key map to the new value. -/
theorem dget_dset (l : List (String × α)) (k : String) (v : α) :
    dget (dset l k v) k = some v := by
  unfold dset dget
  by_cases h : (l.find? (fun p => p.1 = k)).isSome = true
  · rw [if_pos h, find?_map_update l k v h]
    rfl
  · rw [if_neg h]
    have hn : l.find? (fun p => p.1 = k) = none := by
      cases hf : l.find? (fun p => p.1 = k) with
      | none => rfl
      | some p => rw [hf] at h; simp at h
    rw [find?_none_append l [(k, v)] _ hn]
    simp [List.find?]

/-- A Python dict assignment preserves key uniqueness. -/
theorem dset_nodup (l : List (String × α)) (k : String) (v : α)
    (h : (l.map Prod.fst).Nodup) : ((dset l k v).map Prod.fst).Nodup := by
  unfold dset
  by_cases hf : (l.find? (fun p => p.1 = k)).isSome = true
  · rw [if_pos hf, dset_update_keys]
    exact h
  · rw [if_neg hf]
    have hn : l.find? (fun p => p.1 = k) = none := by
      cases hfind : l.find? (fun p => p.1 = k) with
      | none => rfl
      | some p => rw [hfind] at hf; simp at hf
    have hmem : k ∉ l.map Prod.fst := by
      rw [List.find?_eq_none] at hn
      intro hk
      obtain ⟨p, hp, hpk⟩ := List.mem_map.mp hk
      have := hn p hp
      simp [hpk] at this
    simp only [List.map_append, List.map_cons, List.map_nil]
    simp [List.nodup_append, h, hmem]

/-- A successful `load_module` replaces the registry entry for the
module's name (in place when present, appended when new), regardless of
whether the timer setup aborted afterwards. -/
theorem load_module_modules (E : Engine) (content filepath nm : String)
    (now : ℚ) (m0 : FlowModule)
    (hparse : parse_content content filepath = .ok m0) :
    (load_module E content filepath (some nm) now).1.modules =
      dset E.modules nm { m0 with name := nm } := by
  unfold load_module
  rw [hparse]
  dsimp only
  cases hst : setup_timers E.timers { m0 with name := nm } now with
  | mk ts b => cases b <;> simp

/-- The C6 reload script: one event-triggered flow. -/
def script_ping : String :=
  "flow f:\n    when event ping -> call h\n\nfunction h:\n    say \"pong\"\n"

/-- The parse of `script_ping` (under the registered name `m`). -/
def module_ping : FlowModule :=
  { name := "m",
    flows := [("f", { name := "f", triggers := [⟨.event, "ping", [], 0⟩] })],
    functions := [("h", { name := "h", actions := [⟨.say "pong", []⟩] })] }

/-- The handler entry one load of `script_ping` registers for `ping`. -/
def handler_ping : HandlerEntry :=
  ⟨{ name := "f", triggers := [⟨.event, "ping", [], 0⟩] }, module_ping,
    ⟨.event, "ping", [], 0⟩⟩

/-- `script_ping` loaded twice under the same name. -/
def engine_ping2 : Engine :=
  (load_module (load_module {} script_ping "e.flow" (some "m") 0).1
    script_ping "e.flow" (some "m") 0).1

/-- C6 (counterexample): after loading the same module twice under the
same name, the `ping` handler list holds the same registration twice —
the reload appended instead of replacing, so duplicate handler entries
do exist. -/
theorem C6_reload_duplicates_event_handlers :
    dget engine_ping2.event_handlers "ping" =
      some [handler_ping, handler_ping] := by
  decide

/-- C6 (amended): reloading a module under the same name fully replaces
the *module registry* entry — afterwards the name maps to the freshly
parsed module, and unique keys stay unique, so there is exactly one
entry — but event-handler registrations from the earlier load are *not*
removed: each reload appends one more (identical) handler entry per
`event` trigger, as the counterexample's doubled `ping` list shows. -/
theorem C6_module_reload (E : Engine) (content filepath nm : String)
    (now1 now2 : ℚ) (m0 : FlowModule)
    (hparse : parse_content content filepath = .ok m0) :
    dget (load_module (load_module E content filepath (some nm) now1).1
        content filepath (some nm) now2).1.modules nm =
      some { m0 with name := nm } ∧
    dget (load_module E content filepath (some nm) now1).1.modules nm =
      some { m0 with name := nm } ∧
    ((E.modules.map Prod.fst).Nodup →
      ((load_module (load_module E content filepath (some nm) now1).1
          content filepath (some nm) now2).1.modules.map Prod.fst).Nodup) := by
  refine ⟨?_, ?_, fun hn => ?_⟩
  · rw [load_module_modules _ content filepath nm now2 m0 hparse]
    exact dget_dset _ nm _
  · rw [load_module_modules E content filepath nm now1 m0 hparse]
    exact dget_dset _ nm _
  · rw [load_module_modules _ content filepath nm now2 m0 hparse]
    apply dset_nodup
    rw [load_module_modules E content filepath nm now1 m0 hparse]
    exact dset_nodup _ nm _ hn

/-- C6 witness: the reload statement at the `script_ping` engine. -/
theorem C6_module_reload_witness :
    dget engine_ping2.modules "m" = some { module_ping with name := "m" } :=
  (C6_module_reload {} script_ping "e.flow" "m" 0 0
    { module_ping with name := "e.flow" } (by decide)).1

/-- A script with unmatched constructs inside both a flow block
(`say hello`, no quotes — matches no action grammar) and a function
block (`frobnicate the widget` — matches nothing at all). -/
def script_junk : String :=
  "flow f:\n    say hello\n\nfunction g:\n    frobnicate the widget\n"

/-- The module the junk script parses to. -/
def module_junk : FlowModule :=
  { name := "m",
    flows := [("f", { name := "f", actions := [none] })],
    functions := [("g", { name := "g" })] }

/-- C5 (counterexample): the junk script parses *successfully* — the
malformed flow-block action line is appended as a `None` action and the
unmatched function-block line is silently dropped, where the claim says
any construct inside a recognized block that matches no grammar must
fail with a `ParseError`. -/
theorem C5_junk_in_blocks_parses :
    parse_content script_junk "m" = .ok module_junk := by
  decide

/-- The only constructs whose failure raises during parsing: the 1-based
`line`-numbered source line strips to a `when ` line matching no trigger
pattern, or to a `timeout:`/`retry:` line whose value `int()` rejects. -/
def offendingLine (lines : List String) (e : ParseErr) : Prop :=
  1 ≤ e.line ∧ ∃ raw, lines[e.line - 1]? = some raw ∧
    ((pyStartsWith (pyStrip raw) "when " = true ∧
        parse_trigger (pyStrip raw) = none ∧
        e.kind = .invalidTrigger (pyStrip raw)) ∨
      ((pyStartsWith (pyStrip raw) "timeout:" = true ∨
          pyStartsWith (pyStrip raw) "retry:" = true) ∧
        pyInt? (pyStrip ((pySplitOnce ":" (pyStrip raw)).2.getD "")) = none ∧
        e.kind = .intLiteral
          (pyStrip ((pySplitOnce ":" (pyStrip raw)).2.getD ""))))

/-- Every error `_parse_flow_block` raises points (with its 1-based line
number) at a malformed `when `/`timeout:`/`retry:` line. -/
theorem parse_flow_block_error_sound (fuel : Nat) :
    ∀ (lines : List String) (i : Nat) (flow : Flow) (e : ParseErr),
      parse_flow_block fuel lines i flow = .error e →
      offendingLine lines e := by
  induction fuel with
  | zero =>
    intro lines i flow e h
    unfold parse_flow_block at h
    exact absurd h (by simp)
  | succ fuel ih =>
    intro lines i flow e h
    unfold parse_flow_block at h
    cases hline : lines[i]? with
    | none => rw [hline] at h; dsimp only at h; exact absurd h (by simp)
    | some raw =>
      rw [hline] at h
      dsimp only at h
      by_cases h0 : pyStrip raw = "" ∨ pyStartsWith (pyStrip raw) "#" = true
      · rw [if_pos (by simpa using h0)] at h
        exact ih lines (i + 1) flow e h
      · rw [if_neg (by simpa using h0)] at h
        by_cases hbrk : (!(pyStartsWith (pyStrip raw) " " ||
            pyStartsWith (pyStrip raw) "\t") &&
            pyEndsWith (pyStrip raw) ":") = true
        · rw [if_pos hbrk] at h
          cases h
        · rw [if_neg hbrk] at h
          by_cases hwhen : pyStartsWith (pyStrip raw) "when " = true
          · rw [if_pos hwhen] at h
            cases htrig : parse_trigger (pyStrip raw) with
            | some trig =>
              rw [htrig] at h
              exact ih lines (i + 1) _ e h
            | none =>
              rw [htrig] at h
              cases h
              exact ⟨by show 1 ≤ i + 1; omega, raw, by simpa using hline,
                Or.inl ⟨hwhen, htrig, rfl⟩⟩
          · rw [if_neg hwhen] at h
            by_cases hact : (pyStartsWith (pyStrip raw) "say " ||
                pyStartsWith (pyStrip raw) "set " ||
                pyStartsWith (pyStrip raw) "call " ||
                pyStartsWith (pyStrip raw) "api " ||
                pyStartsWith (pyStrip raw) "emit ") = true
            · rw [if_pos hact] at h
              exact ih lines (i + 1) _ e h
            · rw [if_neg hact] at h
              by_cases huse : pyStartsWith (pyStrip raw) "use " = true
              · rw [if_pos huse] at h
                exact ih lines (i + 1) _ e h
              · rw [if_neg huse] at h
                by_cases htimeout : pyStartsWith (pyStrip raw) "timeout:" = true
                · rw [if_pos htimeout] at h
                  cases hint : pyInt? (pyStrip ((pySplitOnce ":"
                      (pyStrip raw)).2.getD "")) with
                  | some n =>
                    rw [hint] at h
                    exact ih lines (i + 1) _ e h
                  | none =>
                    rw [hint] at h
                    cases h
                    exact ⟨by show 1 ≤ i + 1; omega, raw, by simpa using hline,
                      Or.inr ⟨Or.inl htimeout, hint, rfl⟩⟩
                · rw [if_neg htimeout] at h
                  by_cases hretry : pyStartsWith (pyStrip raw) "retry:" = true
                  · rw [if_pos hretry] at h
                    cases hint : pyInt? (pyStrip ((pySplitOnce ":"
                        (pyStrip raw)).2.getD "")) with
                    | some n =>
                      rw [hint] at h
                      exact ih lines (i + 1) _ e h
                    | none =>
                      rw [hint] at h
                      cases h
                      exact ⟨by show 1 ≤ i + 1; omega, raw, by simpa using hline,
                        Or.inr ⟨Or.inr hretry, hint, rfl⟩⟩
                  · rw [if_neg hretry] at h
                    exact ih lines (i + 1) _ e h

/-- Every error `_parse_blocks` raises comes out of a flow block and
points at its malformed line. -/
theorem parse_blocks_error_sound (fuel : Nat) :
    ∀ (lines : List String) (i : Nat) (m : FlowModule) (e : ParseErr),
      parse_blocks fuel lines i m = .error e → offendingLine lines e := by
  induction fuel with
  | zero =>
    intro lines i m e h
    unfold parse_blocks at h
    exact absurd h (by simp)
  | succ fuel ih =>
    intro lines i m e h
    unfold parse_blocks at h
    cases hline : lines[i]? with
    | none => rw [hline] at h; dsimp only at h; exact absurd h (by simp)
    | some raw =>
      rw [hline] at h
      dsimp only at h
      by_cases h0 : pyStrip raw = "" ∨ pyStartsWith (pyStrip raw) "#" = true
      · rw [if_pos (by simpa using h0)] at h
        exact ih lines (i + 1) m e h
      · rw [if_neg (by simpa using h0)] at h
        by_cases hflow : pyStartsWith (pyStrip raw) "flow " = true
        · rw [if_pos hflow] at h
          cases hfb : parse_flow_block fuel lines (i + 1)
              { name := pyStripChar ':' (pyDrop 5 (pyStrip raw)) } with
          | ok r =>
            rw [hfb] at h
            exact ih lines r.2 _ e h
          | error e2 =>
            rw [hfb] at h
            cases h
            exact parse_flow_block_error_sound fuel lines (i + 1) _ e hfb
        · rw [if_neg hflow] at h
          by_cases hfun : pyStartsWith (pyStrip raw) "function " = true
          · rw [if_pos hfun] at h
            exact ih lines _ _ e h
          · rw [if_neg hfun] at h
            by_cases hmw : pyStartsWith (pyStrip raw) "middleware " = true
            · rw [if_pos hmw] at h
              exact ih lines _ _ e h
            · rw [if_neg hmw] at h
              exact ih lines (i + 1) m e h

/-- A string with a nonempty prefix starts with that prefix's first
character. -/
theorem pyStartsWith_head (l p : String) (c : Char) (cs : List Char)
    (hp : p.toList = c :: cs) (h : pyStartsWith l p = true) :
    ∃ rest, l.toList = c :: rest := by
  unfold pyStartsWith at h
  rw [hp] at h
  cases hl : l.toList with
  | nil =>
    rw [hl] at h
    simp [List.isPrefixOf] at h
  | cons d ds =>
    rw [hl] at h
    simp [List.isPrefixOf] at h
    exact ⟨ds, by rw [h.1]⟩

/-- Two candidate prefixes with different first characters exclude each
other. -/
theorem pyStartsWith_head_ne (l p q : String) (c : Char) (cs : List Char)
    (d : Char) (ds : List Char) (hp : p.toList = c :: cs)
    (hq : q.toList = d :: ds) (hcd : (d == c) = false)
    (h : pyStartsWith l p = true) : pyStartsWith l q = false := by
  obtain ⟨rest, hl⟩ := pyStartsWith_head l p c cs hp h
  unfold pyStartsWith
  rw [hq, hl]
  simp [List.isPrefixOf]
  intro hdc
  rw [hdc] at hcd
  simp at hcd

/-- A string with a nonempty prefix is nonempty. -/
theorem pyStartsWith_ne_empty (l p : String) (c : Char) (cs : List Char)
    (hp : p.toList = c :: cs) (h : pyStartsWith l p = true) : ¬ l = "" := by
  intro he
  subst he
  unfold pyStartsWith at h
  rw [hp] at h
  simp [List.isPrefixOf] at h

/-- C5 (amended): unrecognized constructs inside blocks do *not* fail —
only a `when ` line matching no trigger pattern (or a non-integer
`timeout:`/`retry:` value) raises.  Conjunct 1 (soundness): whenever
`parse_content` fails, the carried 1-based line number points at exactly
such a line.  Conjunct 2 (completeness): a flow-block line that strips
to a `when ` line (not a block terminator) matching no trigger grammar
always raises, with that line's 1-based number.  Conjunct 3: an
unrecognized top-level line is skipped rather than failing. -/
theorem C5_parse_failure_characterised :
    (∀ (content filename : String) (e : ParseErr),
      parse_content content filename = .error e →
      offendingLine (pySplitChar '\n' content) e) ∧
    (∀ (fuel : Nat) (lines : List String) (i : Nat) (flow : Flow)
      (raw : String),
      lines[i]? = some raw →
      pyStartsWith (pyStrip raw) "when " = true →
      pyEndsWith (pyStrip raw) ":" = false →
      parse_trigger (pyStrip raw) = none →
      parse_flow_block (fuel + 1) lines i flow =
        .error ⟨i + 1, .invalidTrigger (pyStrip raw)⟩) ∧
    (∀ (fuel : Nat) (lines : List String) (i : Nat) (m : FlowModule)
      (raw : String),
      lines[i]? = some raw →
      ¬ pyStrip raw = "" →
      pyStartsWith (pyStrip raw) "#" = false →
      pyStartsWith (pyStrip raw) "flow " = false →
      pyStartsWith (pyStrip raw) "function " = false →
      pyStartsWith (pyStrip raw) "middleware " = false →
      parse_blocks (fuel + 1) lines i m = parse_blocks fuel lines (i + 1) m) := by
  refine ⟨?_, ?_, ?_⟩
  · intro content filename e h
    unfold parse_content at h
    exact parse_blocks_error_sound _ _ 0 _ e h
  · intro fuel lines i flow raw hline hwhen hcolon htrig
    have hne : ¬ pyStrip raw = "" :=
      pyStartsWith_ne_empty _ "when " 'w' _ rfl hwhen
    have hhash : pyStartsWith (pyStrip raw) "#" = false :=
      pyStartsWith_head_ne _ "when " "#" 'w' _ '#' [] rfl rfl (by decide) hwhen
    have hsp : pyStartsWith (pyStrip raw) " " = false :=
      pyStartsWith_head_ne _ "when " " " 'w' _ ' ' [] rfl rfl (by decide) hwhen
    have htab : pyStartsWith (pyStrip raw) "\t" = false :=
      pyStartsWith_head_ne _ "when " "\t" 'w' _ '\t' [] rfl rfl (by decide)
        hwhen
    rw [parse_flow_block, hline]
    dsimp only
    simp [hne, hhash, hsp, htab, hcolon, hwhen, htrig]
  · intro fuel lines i m raw hline hne hhash hflow hfun hmw
    rw [parse_blocks, hline]
    dsimp only
    simp [hne, hhash, hflow, hfun, hmw]

/-- C5 witness: the completeness and skip conjuncts at concrete lines,
and the soundness conjunct at a concrete failing script. -/
theorem C5_parse_failure_characterised_witness :
    parse_flow_block 4 ["flow f:", "    when nonsense"] 1 { name := "f" } =
      .error ⟨2, .invalidTrigger "when nonsense"⟩ ∧
    parse_blocks 3 ["mystery top level line"] 0 { name := "m" } =
      parse_blocks 2 ["mystery top level line"] 1 { name := "m" } ∧
    offendingLine (pySplitChar '\n' "flow f:\n    when nonsense")
      ⟨2, .invalidTrigger "when nonsense"⟩ :=
  ⟨by
      have h := C5_parse_failure_characterised.2.1 3
        ["flow f:", "    when nonsense"] 1 { name := "f" } "    when nonsense"
        (by decide) (by decide) (by decide) (by decide)
      simpa using h,
    C5_parse_failure_characterised.2.2 2 ["mystery top level line"] 0
      { name := "m" } "mystery top level line" (by decide) (by decide)
      (by decide) (by decide) (by decide) (by decide),
    C5_parse_failure_characterised.1 "flow f:\n    when nonsense" "m"
      ⟨2, .invalidTrigger "when nonsense"⟩ (by decide)⟩

end Baikon
